import Mathlib

/-!
Shallow embedding of the analytical core of the weather_app repository:
`WeatherDataProcessor.clean_weather_data`, `WeatherDataProcessor.detect_extreme_events`
(src/data_processors/weather_processor.py) and
`CorrelationAnalyzer.analyze_weather_traffic_correlation`,
`CorrelationAnalyzer.analyze_extreme_weather_impact`
(src/data_processors/correlation_analyzer.py).

Modelling conventions:
- A pandas float cell is `Option ℚ`: `none` models NaN; comparisons against
  `none` are `false`, exactly as NaN comparisons evaluate to False in pandas.
- A pandas DataFrame is a record of column-presence flags plus a list of rows;
  `df.empty` is `rows.isEmpty`; operations guard on the presence flags the way
  the source guards on `col in df.columns`.
- A `date` cell is a `DateCell`: an unparsed string that either denotes a valid
  date (`sGood`) or fails to parse (`sBad`), an already-coerced datetime
  (`dts`), or a missing value (`na`, pandas NaT/NaN).  `pd.to_datetime` maps
  `sGood d` to `dts d`, keeps `dts`/`na`, and raises on `sBad`.
- Calendar dates are ℤ (day numbers); `strftime` is abstracted away, an event
  stores the day number itself.  `strftime` succeeds only on a `dts` cell
  (a str or NaT receiver raises), which the model tracks.
- Python exceptions are `Except PyErr`; a `try/except` block is a `match` on
  the inner `Except` value.  Where the source mutates state before raising
  (in-place column assignment, incremental list appends), the error carries
  the mutated state, mirroring Python semantics.
- `scipy.stats.pearsonr` and `pandas.Series.corr` are external libraries, not
  repository code; their ≥2-point numeric results are irrational in general,
  so they enter the model as function parameters (`cf`, `pf`); every theorem
  below is quantified over them, and no claim depends on their values.
- Exact rational arithmetic stands in for float64 arithmetic; an IEEE
  non-finite result (inf/NaN from dividing by a zero mean) is modelled as
  `none`.  No claim below depends on a float-rounding boundary.
- `sort_values('date')` uses pandas' default `kind='quicksort'` (numpy
  introsort), which is UNSTABLE: on blocks of more than 16 equal keys it
  permutes equal-key records even when the input is already key-sorted.  The
  embedding fixes one admissible output (`List.insertionSort` by date), so
  about the order of the cleaned rows only properties that are invariant
  under reordering equal-date records are asserted (sortedness by date,
  membership, multiset/permutation facts) — never the exact placement of
  equal-date records, and in particular not idempotence of a re-sort.
-/

/-- A pandas float cell: `none` is NaN. -/
abbrev PFloat := Option ℚ

/-- A cell of the `date` column. -/
inductive DateCell where
  | sGood (d : ℤ)
  | sBad
  | dts (d : ℤ)
  | na
deriving DecidableEq

/-- Exceptions that the embedded code can raise internally. -/
inductive PyErr where
  | keyError
  | valueError
  | attrError
deriving DecidableEq

/-- One row of a weather DataFrame (columns TMAX, TMIN, TAVG, PRCP, AWND, SNOW). -/
structure WRow where
  date : DateCell
  tmax : PFloat
  tmin : PFloat
  tavg : PFloat
  prcp : PFloat
  awnd : PFloat
  snow : PFloat
deriving DecidableEq

/-- A weather DataFrame: column-presence flags plus rows.  When a flag is
`false` the corresponding row fields are never consulted (the source guards
every access with `col in df.columns`). -/
structure WDF where
  hasDate : Bool
  hasTMAX : Bool
  hasTMIN : Bool
  hasTAVG : Bool
  hasPRCP : Bool
  hasAWND : Bool
  hasSNOW : Bool
  rows : List WRow
deriving DecidableEq

/-- One row of a traffic DataFrame. -/
structure TRow where
  date : DateCell
  volume : PFloat
  speed : PFloat
deriving DecidableEq

/-- A traffic DataFrame. -/
structure TDF where
  hasDate : Bool
  hasVolume : Bool
  hasSpeed : Bool
  rows : List TRow
deriving DecidableEq

/-- `pd.to_datetime` on one cell; `none` is a raised parse error. -/
def parseDate : DateCell → Option DateCell
  | .sGood d => some (.dts d)
  | .sBad => none
  | .dts d => some (.dts d)
  | .na => some .na

/-- `df['date'] = pd.to_datetime(df['date'])` over the weather rows; the whole
column conversion raises if any cell is unparseable (and then no assignment
happens, matching Python's evaluate-then-assign order). -/
def parseRowsW : List WRow → Except PyErr (List WRow)
  | [] => .ok []
  | r :: rs =>
    match parseDate r.date with
    | none => .error PyErr.valueError
    | some d =>
      match parseRowsW rs with
      | .error e => .error e
      | .ok rest => .ok ({ r with date := d } :: rest)

/-- Same column conversion for traffic rows. -/
def parseRowsT : List TRow → Except PyErr (List TRow)
  | [] => .ok []
  | r :: rs =>
    match parseDate r.date with
    | none => .error PyErr.valueError
    | some d =>
      match parseRowsT rs with
      | .error e => .error e
      | .ok rest => .ok ({ r with date := d } :: rest)

/-- Sort key used by `sort_values('date')`; only `dts` cells reach the sort. -/
def dateKey : DateCell → ℤ
  | .sGood d => d
  | .dts d => d
  | _ => 0

/-- Row order of `sort_values('date')`. -/
def wle (a b : WRow) : Prop := dateKey a.date ≤ dateKey b.date

instance : DecidableRel wle := fun a b => inferInstanceAs (Decidable (_ ≤ _))

instance : IsTotal WRow wle := ⟨fun a b => le_total (dateKey a.date) (dateKey b.date)⟩

instance : IsTrans WRow wle := ⟨fun _ _ _ h h2 => le_trans h h2⟩

/-- `Series.quantile(q)` with the default linear interpolation, over the
non-NaN values of a column; `none` when every value is NaN. -/
def quantileQ (q : ℚ) (xs : List ℚ) : Option ℚ :=
  let s := xs.insertionSort (· ≤ ·)
  if s.isEmpty then none
  else
    let n := s.length
    let h : ℚ := q * ((n : ℚ) - 1)
    let i : ℕ := (Int.floor h).toNat
    let g : ℚ := h - (i : ℚ)
    if i + 1 < n then some ((s.getD i 0) + g * (s.getD (i + 1) 0 - s.getD i 0))
    else some (s.getD i 0)

/-- The filter `(col >= q1) & (col <= q3)`: false for a NaN cell and false
when either quantile is NaN (all comparisons against NaN are False). -/
def keepInBand (get : WRow → PFloat) (q1 q3 : Option ℚ) (r : WRow) : Bool :=
  match get r, q1, q3 with
  | some v, some a, some b => decide (a ≤ v) && decide (v ≤ b)
  | _, _, _ => false

/-- One pass of the per-temperature-column outlier trim of
`clean_weather_data` (quantiles 0.01 and 0.99 over the current rows). -/
def tempFilter (get : WRow → PFloat) (rows : List WRow) : List WRow :=
  let q1 := quantileQ (1 / 100) (rows.filterMap get)
  let q3 := quantileQ (99 / 100) (rows.filterMap get)
  rows.filter (keepInBand get q1 q3)

/-- A guarded temperature trim (`if col in columns: ...percentile filter...`). -/
def condTemp (flag : Bool) (get : WRow → PFloat) (l : List WRow) : List WRow :=
  if flag then tempFilter get l else l

/-- A guarded non-negativity filter (`if col in columns: df = df[df[col] >= 0]`);
note a NaN cell also fails `>= 0` and is dropped. -/
def condNonNeg (flag : Bool) (get : WRow → PFloat) (l : List WRow) : List WRow :=
  if flag then l.filter (fun r => (get r).elim false (fun v => decide (0 ≤ v))) else l

/-- The row-filter chain of `clean_weather_data`, innermost first:
`dropna(subset=['date'])`, the three guarded temperature trims (TMAX, TMIN,
TAVG), then the PRCP and AWND non-negativity filters. -/
def cleanFilters (df : WDF) (rows1 : List WRow) : List WRow :=
  condNonNeg df.hasAWND (fun r => r.awnd)
    (condNonNeg df.hasPRCP (fun r => r.prcp)
      (condTemp df.hasTAVG (fun r => r.tavg)
        (condTemp df.hasTMIN (fun r => r.tmin)
          (condTemp df.hasTMAX (fun r => r.tmax)
            (rows1.filter (fun r => decide (r.date ≠ DateCell.na)))))))

/-- The body of `clean_weather_data` inside its `try:` block.  Steps in source
order: date coercion (only if the column exists), the `cleanFilters` chain,
sort by date.  The branch on `hasDate` is hoisted: when the column is absent
the date coercion is skipped and `dropna(subset=['date'])` raises KeyError,
with no observable state in between.  `insertionSort wle` stands for
`sort_values('date')`, whose default numpy quicksort is unstable: it is one
admissible date-sorted permutation of the filtered rows, and only properties
invariant under reordering equal-date records are claimed of the result order
(see the module docstring). -/
def cleanExc (df : WDF) : Except PyErr WDF :=
  if df.hasDate then
    match parseRowsW df.rows with
    | .error e => .error e
    | .ok rows1 => .ok { df with rows := (cleanFilters df rows1).insertionSort wle }
  else .error PyErr.keyError

/-- `WeatherDataProcessor.clean_weather_data`: empty input returned as is;
any exception in the body is caught and the original frame returned. -/
def clean_weather_data (df : WDF) : WDF :=
  if df.rows.isEmpty then df
  else
    match cleanExc df with
    | .ok r => r
    | .error _ => df

/-- The caller's view of a `clean_weather_data` call: an `Except` that is an
error exactly when an exception would escape to the caller. -/
def cleanCall (df : WDF) : Except PyErr WDF :=
  if df.rows.isEmpty then .ok df
  else
    match cleanExc df with
    | .ok r => .ok r
    | .error _ => .ok df

/-- An entry of a category list in the `detect_extreme_events` result: run
events (heatwave, cold spell, drought) carry start/end dates, duration and
aggregates; point events (heavy rain, snowstorm, high wind) carry one date,
the triggering value and a severity string. -/
inductive EventD where
  | runE (startD endD : ℤ) (duration : ℕ) (maxV minV avgV : PFloat)
  | pointE (date : ℤ) (value : ℚ) (severity : String)
deriving DecidableEq

/-- The comparison operators `_detect_consecutive_events` is called with. -/
inductive CmpOp where
  | gt
  | lt
  | eqc
deriving DecidableEq

/-- The boolean mask `df[column] <op> threshold` on one cell; a NaN cell
compares False under every operator. -/
def maskCell (c : CmpOp) (thr : ℚ) : PFloat → Bool
  | some v =>
    match c with
    | .gt => decide (thr < v)
    | .lt => decide (v < thr)
    | .eqc => decide (v = thr)
  | none => false

/-- Partition a list into maximal segments of constant `p`-value.  This is the
semantics of `(mask != mask.shift()).cumsum()` followed by `groupby`: a new
group id is issued exactly when the mask value changes from the previous row,
so the groups are the maximal constant-mask segments, in positional order. -/
def runsBy {α : Type} (p : α → Bool) : List α → List (List α)
  | [] => []
  | x :: xs =>
    match runsBy p xs with
    | [] => [[x]]
    | [] :: rest => [x] :: rest
    | (y :: ys) :: rest =>
      if p x = p y then (x :: y :: ys) :: rest else [x] :: (y :: ys) :: rest

/-- `Series.max()`: maximum of the non-NaN values, NaN when there are none. -/
def maxO (l : List PFloat) : PFloat :=
  match l.filterMap id with
  | [] => none
  | v :: vs => some (vs.foldl max v)

/-- `Series.min()`. -/
def minO (l : List PFloat) : PFloat :=
  match l.filterMap id with
  | [] => none
  | v :: vs => some (vs.foldl min v)

/-- `Series.mean()`: mean of the non-NaN values, NaN when there are none. -/
def meanO (l : List PFloat) : PFloat :=
  match l.filterMap id with
  | [] => none
  | v :: vs => some ((v + vs.sum) / ((vs.length + 1 : ℕ) : ℚ))

/-- Build one run-event dict from a qualifying group:
`group_data.iloc[0]['date'].strftime(...)` needs the date column present and a
datetime cell at both ends, otherwise it raises (modelled as `none`). -/
def mkRunEvent (hasDate : Bool) (get : WRow → PFloat) (g : List WRow) : Option EventD :=
  if hasDate then
    match g.head?, g.getLast? with
    | some f, some l =>
      match f.date, l.date with
      | .dts a, .dts b =>
        some (.runE a b g.length (maxO (g.map get)) (minO (g.map get)) (meanO (g.map get)))
      | _, _ => none
    | _, _ => none
  else none

/-- The loop over `valid_groups` in `_detect_consecutive_events`: a group is
valid when the sum of its mask values reaches `min_consecutive`
(`consecutive_counts >= min_consecutive`), the loop re-checks
`len(group_data) >= min_consecutive`, and the function's own `try/except`
returns the events accumulated so far if building an event raises. -/
def buildRunEvents (hasDate : Bool) (get : WRow → PFloat) (minC : ℕ) (p : WRow → Bool) :
    List (List WRow) → List EventD
  | [] => []
  | g :: gs =>
    if minC ≤ g.countP p then
      if minC ≤ g.length then
        match mkRunEvent hasDate get g with
        | some e => e :: buildRunEvents hasDate get minC p gs
        | none => []
      else buildRunEvents hasDate get minC p gs
    else buildRunEvents hasDate get minC p gs

/-- `WeatherDataProcessor._detect_consecutive_events`. -/
def detectConsecutiveEvents (hasDate : Bool) (get : WRow → PFloat) (thr : ℚ) (minC : ℕ)
    (c : CmpOp) (rows : List WRow) : List EventD :=
  buildRunEvents hasDate get minC (fun r => maskCell c thr (get r))
    (runsBy (fun r => maskCell c thr (get r)) rows)

/-- Specification-side restatement of the run-detection algorithm (spec §4.2):
for every maximal run on which the mask is true and whose length reaches the
category minimum, emit one event spanning the run's first to last record with
duration equal to the run length and aggregates over exactly that run.  Used
only to compare against the embedded implementation. -/
def specRunEvent (get : WRow → PFloat) (g : List WRow) : EventD :=
  match g.head?, g.getLast? with
  | some f, some l =>
    .runE (dateKey f.date) (dateKey l.date) g.length (maxO (g.map get)) (minO (g.map get))
      (meanO (g.map get))
  | _, _ => .runE 0 0 0 none none none

/-- Specification-side run events (see `specRunEvent`). -/
def spec_run_events (p : WRow → Bool) (get : WRow → PFloat) (minC : ℕ)
    (rows : List WRow) : List EventD :=
  (runsBy p rows).filterMap (fun g =>
    if (g.head?.elim false p) && decide (minC ≤ g.length) then some (specRunEvent get g)
    else none)

/-- One point-event loop (`for _, day in qualifying.iterrows(): append(...)`).
The error value carries the events appended before the raising row, because
the Python loop mutates the category list in place. -/
def pointEventsBuild (hasDate : Bool) (get : WRow → PFloat) (thr : ℚ) (sev : ℚ → String) :
    List WRow → Except (PyErr × List EventD) (List EventD)
  | [] => .ok []
  | r :: rs =>
    match get r with
    | some v =>
      if thr < v then
        if hasDate then
          match r.date with
          | .dts d =>
            match pointEventsBuild hasDate get thr sev rs with
            | .ok l => .ok (.pointE d v (sev v) :: l)
            | .error (e, l) => .error (e, .pointE d v (sev v) :: l)
          | _ => .error (PyErr.attrError, [])
        else .error (PyErr.keyError, [])
      else pointEventsBuild hasDate get thr sev rs
    | none => pointEventsBuild hasDate get thr sev rs

/-- The result dict of `detect_extreme_events`, as the ordered key/value list
Python builds. -/
abbrev EMap := List (String × List EventD)

/-- The dict literal initializing `events` with all six categories. -/
def initEvents : EMap :=
  [("heatwaves", []), ("cold_spells", []), ("heavy_rainfall", []), ("snowstorms", []),
   ("high_winds", []), ("drought_periods", [])]

/-- `events[k] = v` for a key already present (all six are, each once):
replace the entry carrying that key, keep everything else. -/
def setE (m : EMap) (k : String) (v : List EventD) : EMap :=
  match m with
  | [] => []
  | (k1, v1) :: rest => if k1 = k then (k, v) :: setE rest k v else (k1, v1) :: setE rest k v

/-- A guarded run-category assignment (`if col in df.columns: events[k] = ...`). -/
def stepRun (flag : Bool) (k : String) (evs : List EventD) (m : EMap) : EMap :=
  if flag then setE m k evs else m

/-- A guarded point-category loop; on an exception the partially appended list
is already in the dict. -/
def stepPoint (flag : Bool) (k : String) (r : Except (PyErr × List EventD) (List EventD))
    (m : EMap) : Except (PyErr × EMap) EMap :=
  if flag then
    match r with
    | .ok l => .ok (setE m k l)
    | .error (e, l) => .error (e, setE m k l)
  else .ok m

/-- Severity string of a heavy-rainfall event. -/
def sevHeavy (_ : ℚ) : String := "heavy"

/-- Severity string of a snowstorm event. -/
def sevStorm (_ : ℚ) : String := "storm"

/-- Severity of a high-wind event:
`'high' if day['AWND'] < extreme_wind else 'extreme'` with threshold 50.0. -/
def sevWind (v : ℚ) : String := if v < 50 then "high" else "extreme"

/-- The body of `detect_extreme_events` inside its `try:` block, in source
order; an escaping exception carries the partially updated dict. -/
def detectExc (df : WDF) : Except (PyErr × EMap) EMap :=
  let e1 := stepRun df.hasTMAX "heatwaves"
    (detectConsecutiveEvents df.hasDate (fun r => r.tmax) 90 3 .gt df.rows) initEvents
  let e2 := stepRun df.hasTMIN "cold_spells"
    (detectConsecutiveEvents df.hasDate (fun r => r.tmin) 32 3 .lt df.rows) e1
  match stepPoint df.hasPRCP "heavy_rainfall"
      (pointEventsBuild df.hasDate (fun r => r.prcp) 2 sevHeavy df.rows) e2 with
  | .error x => .error x
  | .ok e3 =>
    match stepPoint df.hasSNOW "snowstorms"
        (pointEventsBuild df.hasDate (fun r => r.snow) 6 sevStorm df.rows) e3 with
    | .error x => .error x
    | .ok e4 =>
      match stepPoint df.hasAWND "high_winds"
          (pointEventsBuild df.hasDate (fun r => r.awnd) 20 sevWind df.rows) e4 with
      | .error x => .error x
      | .ok e5 =>
        .ok (stepRun df.hasPRCP "drought_periods"
          (detectConsecutiveEvents df.hasDate (fun r => r.prcp) 0 7 .eqc df.rows) e5)

/-- `WeatherDataProcessor.detect_extreme_events`: empty input returns the
all-empty dict; an exception is caught and the partially filled dict
returned. -/
def detect_extreme_events (df : WDF) : EMap :=
  if df.rows.isEmpty then initEvents
  else
    match detectExc df with
    | .ok e => e
    | .error (_, e) => e

/-- The caller's view of a `detect_extreme_events` call. -/
def detectCall (df : WDF) : Except PyErr EMap :=
  if df.rows.isEmpty then .ok initEvents
  else
    match detectExc df with
    | .ok e => .ok e
    | .error (_, e) => .ok e

/-- One entry of the `analyze_weather_traffic_correlation` result dict. -/
structure CorrRes where
  correlation : PFloat
  strength : String
  p_value : PFloat
deriving DecidableEq

/-- A row of the inner-joined frame `pd.merge(weather_df, traffic_df,
on='date', how='inner')`. -/
structure MRow where
  date : DateCell
  tmax : PFloat
  tmin : PFloat
  tavg : PFloat
  prcp : PFloat
  awnd : PFloat
  snow : PFloat
  volume : PFloat
  speed : PFloat
deriving DecidableEq

/-- Combine a weather row and a traffic row sharing a date. -/
def mkMRow (w : WRow) (t : TRow) : MRow :=
  ⟨w.date, w.tmax, w.tmin, w.tavg, w.prcp, w.awnd, w.snow, t.volume, t.speed⟩

/-- Inner join on exact date equality.  Left-frame order is preserved and each
left row pairs with every matching right row, as pandas `merge(how='inner')`
does; `na` keys match each other, which is pandas' NaN-key merge behavior. -/
def mergeRows (ws : List WRow) (ts : List TRow) : List MRow :=
  ws.flatMap (fun w => (ts.filter (fun t => decide (w.date = t.date))).map (mkMRow w))

/-- The paired non-missing observations of two columns: the rows where
neither value is NaN (`mask = ~(x.isna() | y.isna())`). -/
def pairedSomes (xs ys : List PFloat) : List (ℚ × ℚ) :=
  (xs.zip ys).filterMap (fun p =>
    match p.1, p.2 with
    | some a, some b => some (a, b)
    | _, _ => none)

/-- Type of the external statistics routines (`pandas.Series.corr`,
`scipy.stats.pearsonr`'s p-value): library code outside this repository,
abstracted as a parameter; `none` models a NaN result. -/
abbrev StatFun := List ℚ → List ℚ → PFloat

/-- `CorrelationAnalyzer._calculate_correlation`: drop NaN pairs, return 0.0
below 2 points, otherwise defer to `pandas.Series.corr` (`cf`). -/
def calcCorrelation (cf : StatFun) (xs ys : List PFloat) : PFloat :=
  let ps := pairedSomes xs ys
  if ps.length < 2 then some 0 else cf (ps.map Prod.fst) (ps.map Prod.snd)

/-- `CorrelationAnalyzer._calculate_p_value`: drop NaN pairs, return 1.0 below
2 points, otherwise defer to `scipy.stats.pearsonr` (`pf`). -/
def calcPValue (pf : StatFun) (xs ys : List PFloat) : PFloat :=
  let ps := pairedSomes xs ys
  if ps.length < 2 then some 1 else pf (ps.map Prod.fst) (ps.map Prod.snd)

/-- `CorrelationAnalyzer._get_correlation_strength`; a NaN coefficient fails
every threshold comparison and lands on 'negligible'. -/
def strengthOf : PFloat → String
  | none => "negligible"
  | some r =>
    if 7 / 10 ≤ |r| then "strong"
    else if 5 / 10 ≤ |r| then "moderate"
    else if 3 / 10 ≤ |r| then "weak"
    else "negligible"

/-- One correlation dict entry: coefficient, strength of that coefficient,
p-value recomputed from the same two columns. -/
def corrEntry (cf pf : StatFun) (xs ys : List PFloat) : CorrRes :=
  ⟨calcCorrelation cf xs ys, strengthOf (calcCorrelation cf xs ys), calcPValue pf xs ys⟩

/-- The result dict of `analyze_weather_traffic_correlation`, as an ordered
key/value list. -/
abbrev CMap := List (String × CorrRes)

/-- A guarded insertion into the correlations dict
(`if cols present: correlations[k] = {...}`). -/
def corrBlock (flag : Bool) (k : String) (cf pf : StatFun) (xs ys : List PFloat) : CMap :=
  if flag then [(k, corrEntry cf pf xs ys)] else []

/-- The seven pair insertions of `analyze_weather_traffic_correlation`, in
source order. -/
def buildCorrelations (cf pf : StatFun) (w : WDF) (t : TDF) (m : List MRow) : CMap :=
  corrBlock (w.hasTMAX && t.hasVolume) "temperature_traffic" cf pf
      (m.map (fun r => r.tmax)) (m.map (fun r => r.volume))
    ++ corrBlock (w.hasTMIN && t.hasVolume) "min_temperature_traffic" cf pf
      (m.map (fun r => r.tmin)) (m.map (fun r => r.volume))
    ++ corrBlock (w.hasPRCP && t.hasVolume) "precipitation_traffic" cf pf
      (m.map (fun r => r.prcp)) (m.map (fun r => r.volume))
    ++ corrBlock (w.hasAWND && t.hasVolume) "wind_traffic" cf pf
      (m.map (fun r => r.awnd)) (m.map (fun r => r.volume))
    ++ corrBlock (w.hasSNOW && t.hasVolume) "snow_traffic" cf pf
      (m.map (fun r => r.snow)) (m.map (fun r => r.volume))
    ++ (if t.hasSpeed then
          corrBlock w.hasTMAX "temperature_speed" cf pf
              (m.map (fun r => r.tmax)) (m.map (fun r => r.speed))
            ++ corrBlock w.hasPRCP "precipitation_speed" cf pf
              (m.map (fun r => r.prcp)) (m.map (fun r => r.speed))
        else [])

/-- The body of `analyze_weather_traffic_correlation` inside its `try:` block.
The in-place date coercions `weather_df['date'] = pd.to_datetime(...)` and
`traffic_df['date'] = pd.to_datetime(...)` mutate the caller's frames, so the
result and the error both carry the two frames in their post-call state. -/
def correlateExc (cf pf : StatFun) (w : WDF) (t : TDF) :
    Except (PyErr × WDF × TDF) (CMap × WDF × TDF) :=
  if w.hasDate then
    match parseRowsW w.rows with
    | .error e => .error (e, w, t)
    | .ok wr =>
      let w1 := { w with rows := wr }
      if t.hasDate then
        match parseRowsT t.rows with
        | .error e => .error (e, w1, t)
        | .ok tr =>
          let t1 := { t with rows := tr }
          let m := mergeRows wr tr
          if m.isEmpty then .ok ([], w1, t1)
          else .ok (buildCorrelations cf pf w t m, w1, t1)
      else .error (PyErr.keyError, w1, t)
  else .error (PyErr.keyError, w, t)

/-- `CorrelationAnalyzer.analyze_weather_traffic_correlation`: empty inputs
short-circuit to an empty dict; an exception in the body is caught and an
empty dict returned.  The returned triple is (result dict, weather frame
after the call, traffic frame after the call). -/
def analyze_weather_traffic_correlation (cf pf : StatFun) (w : WDF) (t : TDF) :
    CMap × WDF × TDF :=
  if w.rows.isEmpty || t.rows.isEmpty then ([], w, t)
  else
    match correlateExc cf pf w t with
    | .ok r => r
    | .error (_, w1, t1) => ([], w1, t1)

/-- The caller's view of an `analyze_weather_traffic_correlation` call. -/
def correlateCall (cf pf : StatFun) (w : WDF) (t : TDF) :
    Except PyErr (CMap × WDF × TDF) :=
  if w.rows.isEmpty || t.rows.isEmpty then .ok ([], w, t)
  else
    match correlateExc cf pf w t with
    | .ok r => .ok r
    | .error (_, w1, t1) => .ok ([], w1, t1)

/-- One entry of the `analyze_extreme_weather_impact` result dict.  The four
Python dicts use condition-specific key names (`avg_traffic_heatwave`, ...);
they share this shape: mean of the extreme subset, mean of the normal subset,
relative change, extreme-day count. -/
structure ImpactRes where
  avg_extreme : PFloat
  avg_normal : PFloat
  traffic_reduction : PFloat
  extreme_days : ℕ
deriving DecidableEq

/-- `(normal_mean - extreme_mean) / normal_mean * 100` in float arithmetic:
NaN operands propagate and a zero denominator gives an IEEE non-finite value,
both modelled as `none`; no exception is raised either way. -/
def pctReduction (n e : PFloat) : PFloat :=
  match n, e with
  | some a, some b => if a = 0 then none else some ((a - b) / a * 100)
  | _, _ => none

/-- Build one impact dict entry from the two subsets. -/
def impactEntry (ext nor : List MRow) : ImpactRes :=
  ⟨meanO (ext.map (fun r => r.volume)), meanO (nor.map (fun r => r.volume)),
    pctReduction (meanO (nor.map (fun r => r.volume))) (meanO (ext.map (fun r => r.volume))),
    ext.length⟩

/-- `merged_df[merged_df[col] > thr]` membership test (NaN rows in neither
subset). -/
def gtO (v : PFloat) (c : ℚ) : Bool := v.elim false (fun x => decide (c < x))

/-- `merged_df[merged_df[col] <= thr]` membership test. -/
def leO (v : PFloat) (c : ℚ) : Bool := v.elim false (fun x => decide (x ≤ c))

/-- The result dict of `analyze_extreme_weather_impact`. -/
abbrev IMap := List (String × ImpactRes)

/-- One guarded condition block of `analyze_extreme_weather_impact`: split on
`col > thr` vs `col <= thr`, emit only when both subsets are non-empty
(`if len(extreme) > 0 and len(normal) > 0`). -/
def condBlock (flag : Bool) (k : String) (get : MRow → PFloat) (thr : ℚ) (m : List MRow) :
    IMap :=
  if flag then
    let ext := m.filter (fun r => gtO (get r) thr)
    let nor := m.filter (fun r => leO (get r) thr)
    if 0 < ext.length ∧ 0 < nor.length then [(k, impactEntry ext nor)] else []
  else []

/-- The four condition blocks of `analyze_extreme_weather_impact`, in source
order. -/
def buildImpacts (w : WDF) (t : TDF) (m : List MRow) : IMap :=
  condBlock (w.hasTMAX && t.hasVolume) "heatwave_impact" (fun r => r.tmax) 90 m
    ++ condBlock (w.hasPRCP && t.hasVolume) "heavy_rain_impact" (fun r => r.prcp) 2 m
    ++ condBlock (w.hasSNOW && t.hasVolume) "snowstorm_impact" (fun r => r.snow) 6 m
    ++ condBlock (w.hasAWND && t.hasVolume) "high_wind_impact" (fun r => r.awnd) 20 m

/-- The body of `analyze_extreme_weather_impact` inside its `try:` block; the
same join discipline and in-place date coercion as the correlation body. -/
def impactExc (w : WDF) (t : TDF) : Except (PyErr × WDF × TDF) (IMap × WDF × TDF) :=
  if w.hasDate then
    match parseRowsW w.rows with
    | .error e => .error (e, w, t)
    | .ok wr =>
      let w1 := { w with rows := wr }
      if t.hasDate then
        match parseRowsT t.rows with
        | .error e => .error (e, w1, t)
        | .ok tr =>
          let t1 := { t with rows := tr }
          let m := mergeRows wr tr
          if m.isEmpty then .ok ([], w1, t1)
          else .ok (buildImpacts w t m, w1, t1)
      else .error (PyErr.keyError, w1, t)
  else .error (PyErr.keyError, w, t)

/-- `CorrelationAnalyzer.analyze_extreme_weather_impact` with the same
result/state conventions as `analyze_weather_traffic_correlation`. -/
def analyze_extreme_weather_impact (w : WDF) (t : TDF) : IMap × WDF × TDF :=
  if w.rows.isEmpty || t.rows.isEmpty then ([], w, t)
  else
    match impactExc w t with
    | .ok r => r
    | .error (_, w1, t1) => ([], w1, t1)

/-- The caller's view of an `analyze_extreme_weather_impact` call. -/
def impactCall (w : WDF) (t : TDF) : Except PyErr (IMap × WDF × TDF) :=
  if w.rows.isEmpty || t.rows.isEmpty then .ok ([], w, t)
  else
    match impactExc w t with
    | .ok r => .ok r
    | .error (_, w1, t1) => .ok ([], w1, t1)

/-- First-match association-list lookup, the dict access used to state the
key-presence claims. -/
def lookupS {α : Type} (m : List (String × α)) (k : String) : Option α :=
  match m with
  | [] => none
  | (k1, v) :: rest => if k1 = k then some v else lookupS rest k

/-- What `pd.to_datetime` leaves on one weather row when the column conversion
succeeds. -/
def parsedRowW (r : WRow) : WRow :=
  match parseDate r.date with
  | some d => { r with date := d }
  | none => r

/-- What `pd.to_datetime` leaves on one traffic row when the column conversion
succeeds. -/
def parsedRowT (t : TRow) : TRow :=
  match parseDate t.date with
  | some d => { t with date := d }
  | none => t

theorem parseRowsW_ok {rows : List WRow} (h : ∀ r ∈ rows, r.date ≠ DateCell.sBad) :
    parseRowsW rows = .ok (rows.map parsedRowW) := by
  induction rows with
  | nil => rfl
  | cons r rs ih =>
    have hr := h r (List.mem_cons_self r rs)
    have hrs : ∀ x ∈ rs, x.date ≠ DateCell.sBad := fun x hx => h x (List.mem_cons_of_mem r hx)
    cases hd : r.date with
    | sBad => exact absurd hd hr
    | sGood d => simp [parseRowsW, parseDate, hd, ih hrs, parsedRowW]
    | dts d => simp [parseRowsW, parseDate, hd, ih hrs, parsedRowW]
    | na => simp [parseRowsW, parseDate, hd, ih hrs, parsedRowW]

theorem parseRowsW_error {rows : List WRow} (h : ∃ r ∈ rows, r.date = DateCell.sBad) :
    ∃ e, parseRowsW rows = .error e := by
  induction rows with
  | nil => simp at h
  | cons r rs ih =>
    by_cases hr : r.date = DateCell.sBad
    · exact ⟨PyErr.valueError, by simp [parseRowsW, hr, parseDate]⟩
    · obtain ⟨x, hx, hbad⟩ := h
      rcases List.mem_cons.mp hx with rfl | hx2
      · exact absurd hbad hr
      · obtain ⟨e, he⟩ := ih ⟨x, hx2, hbad⟩
        refine ⟨e, ?_⟩
        cases hd : r.date with
        | sBad => exact absurd hd hr
        | sGood d => simp [parseRowsW, parseDate, hd, he]
        | dts d => simp [parseRowsW, parseDate, hd, he]
        | na => simp [parseRowsW, parseDate, hd, he]

theorem parseRowsT_ok {rows : List TRow} (h : ∀ r ∈ rows, r.date ≠ DateCell.sBad) :
    parseRowsT rows = .ok (rows.map parsedRowT) := by
  induction rows with
  | nil => rfl
  | cons r rs ih =>
    have hr := h r (List.mem_cons_self r rs)
    have hrs : ∀ x ∈ rs, x.date ≠ DateCell.sBad := fun x hx => h x (List.mem_cons_of_mem r hx)
    cases hd : r.date with
    | sBad => exact absurd hd hr
    | sGood d => simp [parseRowsT, parseDate, hd, ih hrs, parsedRowT]
    | dts d => simp [parseRowsT, parseDate, hd, ih hrs, parsedRowT]
    | na => simp [parseRowsT, parseDate, hd, ih hrs, parsedRowT]

theorem parsedRowW_date {r : WRow} (h : r.date ≠ DateCell.sBad) :
    (∃ d, (parsedRowW r).date = DateCell.dts d) ∨ (parsedRowW r).date = DateCell.na := by
  cases hd : r.date with
  | sBad => exact absurd hd h
  | sGood d => exact Or.inl ⟨d, by simp [parsedRowW, parseDate, hd]⟩
  | dts d => exact Or.inl ⟨d, by simp [parsedRowW, parseDate, hd]⟩
  | na => exact Or.inr (by simp [parsedRowW, parseDate, hd])

theorem parsedRowW_id {r : WRow} (h : (∃ d, r.date = DateCell.dts d) ∨ r.date = DateCell.na) :
    parsedRowW r = r := by
  rcases h with ⟨d, hd⟩ | hd <;> cases r <;> simp_all [parsedRowW, parseDate]

theorem parseRowsW_id {rows : List WRow}
    (h : ∀ r ∈ rows, (∃ d, r.date = DateCell.dts d) ∨ r.date = DateCell.na) :
    parseRowsW rows = .ok rows := by
  have hb : ∀ r ∈ rows, r.date ≠ DateCell.sBad := by
    intro r hr
    rcases h r hr with ⟨d, hd⟩ | hd <;> simp [hd]
  rw [parseRowsW_ok hb]
  congr 1
  calc rows.map parsedRowW = rows.map id := List.map_congr_left fun r hr => parsedRowW_id (h r hr)
    _ = rows := List.map_id rows

theorem keepInBand_isSome {get : WRow → PFloat} {q1 q3 : Option ℚ} {r : WRow}
    (h : keepInBand get q1 q3 r = true) : (get r).isSome = true := by
  cases hg : get r <;> cases q1 <;> cases q3 <;> simp_all [keepInBand]

theorem condTemp_true (get : WRow → PFloat) (l : List WRow) :
    condTemp true get l =
      l.filter (keepInBand get (quantileQ (1 / 100) (l.filterMap get))
        (quantileQ (99 / 100) (l.filterMap get))) := rfl

theorem condNonNeg_true (get : WRow → PFloat) (l : List WRow) :
    condNonNeg true get l = l.filter (fun r => (get r).elim false (fun v => decide (0 ≤ v))) :=
  rfl

theorem mem_condTemp {flag : Bool} {get : WRow → PFloat} {l : List WRow} {r : WRow}
    (h : r ∈ condTemp flag get l) : r ∈ l ∧ (flag = true → (get r).isSome = true) := by
  cases flag with
  | false => exact ⟨h, by simp⟩
  | true =>
    rw [condTemp_true] at h
    have h2 := List.mem_filter.mp h
    exact ⟨h2.1, fun _ => keepInBand_isSome h2.2⟩

theorem mem_condNonNeg {flag : Bool} {get : WRow → PFloat} {l : List WRow} {r : WRow}
    (h : r ∈ condNonNeg flag get l) :
    r ∈ l ∧ (flag = true → (get r).elim false (fun v => decide (0 ≤ v)) = true) := by
  cases flag with
  | false => exact ⟨h, by simp⟩
  | true =>
    rw [condNonNeg_true] at h
    have h2 := List.mem_filter.mp h
    exact ⟨h2.1, fun _ => h2.2⟩

theorem condTemp_false {get : WRow → PFloat} {l : List WRow} : condTemp false get l = l := rfl

theorem condNonNeg_eq_self {flag : Bool} {get : WRow → PFloat} {l : List WRow}
    (h : flag = true → ∀ r ∈ l, (get r).elim false (fun v => decide (0 ≤ v)) = true) :
    condNonNeg flag get l = l := by
  cases flag with
  | false => rfl
  | true => exact List.filter_eq_self.mpr (h rfl)

/-- Everything membership in the filter chain guarantees about a surviving
row. -/
theorem cleanFilters_props {df : WDF} {rows1 : List WRow} {r : WRow}
    (h : r ∈ cleanFilters df rows1) :
    r ∈ rows1 ∧ r.date ≠ DateCell.na ∧
      (df.hasTMAX = true → r.tmax.isSome = true) ∧
      (df.hasTMIN = true → r.tmin.isSome = true) ∧
      (df.hasTAVG = true → r.tavg.isSome = true) ∧
      (df.hasPRCP = true → r.prcp.elim false (fun v => decide (0 ≤ v)) = true) ∧
      (df.hasAWND = true → r.awnd.elim false (fun v => decide (0 ≤ v)) = true) := by
  unfold cleanFilters at h
  obtain ⟨h, hawnd⟩ := mem_condNonNeg h
  obtain ⟨h, hprcp⟩ := mem_condNonNeg h
  obtain ⟨h, htavg⟩ := mem_condTemp h
  obtain ⟨h, htmin⟩ := mem_condTemp h
  obtain ⟨h, htmax⟩ := mem_condTemp h
  have hd := List.mem_filter.mp h
  exact ⟨hd.1, by simpa using hd.2, htmax, htmin, htavg, hprcp, hawnd⟩

/-- On the good path (date column present, no unparseable date, non-empty
input) `clean_weather_data` is exactly: coerce dates, run the filter chain,
sort. -/
theorem clean_eq_good {df : WDF} (hd : df.hasDate = true)
    (hb : ∀ r ∈ df.rows, r.date ≠ DateCell.sBad) (hne : df.rows ≠ []) :
    clean_weather_data df =
      { df with rows := (cleanFilters df (df.rows.map parsedRowW)).insertionSort wle } := by
  unfold clean_weather_data
  rw [if_neg (by simpa [List.isEmpty_iff] using hne)]
  unfold cleanExc
  rw [if_pos hd, parseRowsW_ok hb]

/-- C1: For every input (including empty, all-missing-field, and single-record
sequences), none of the four core operations clean, detect, correlate,
analyze_impact raises an exception to its caller; each returns a value of its
declared result shape.  The caller-view `Except` of each operation is always
`ok` with exactly the value the embedded operation returns. -/
theorem c1_core_operations_total :
    (∀ df : WDF, cleanCall df = Except.ok (clean_weather_data df)) ∧
      (∀ df : WDF, detectCall df = Except.ok (detect_extreme_events df)) ∧
      (∀ (cf pf : StatFun) (w : WDF) (t : TDF),
        correlateCall cf pf w t = Except.ok (analyze_weather_traffic_correlation cf pf w t)) ∧
      (∀ (w : WDF) (t : TDF), impactCall w t = Except.ok (analyze_extreme_weather_impact w t)) := by
  refine ⟨fun df => ?_, fun df => ?_, fun cf pf w t => ?_, fun w t => ?_⟩
  · unfold cleanCall clean_weather_data
    split
    · rfl
    · split <;> rfl
  · unfold detectCall detect_extreme_events
    split
    · rfl
    · split <;> rfl
  · unfold correlateCall analyze_weather_traffic_correlation
    split
    · rfl
    · split <;> rfl
  · unfold impactCall analyze_extreme_weather_impact
    split
    · rfl
    · split <;> rfl

/-- Input for the C2 counterexample: two valid records on the same date. -/
def exC2 : WDF :=
  ⟨true, false, false, false, false, false, false,
    [⟨.dts 0, none, none, none, none, none, none⟩, ⟨.dts 0, none, none, none, none, none, none⟩]⟩

/-- C2 counterexample: `clean_weather_data` performs no deduplication by date;
on a two-record input with equal dates both records survive cleaning, so the
claim that the cleaned output contains no two records with the same date is
false. -/
theorem c2_counterexample :
    (clean_weather_data exC2).rows.map (fun r => r.date) = [DateCell.dts 0, DateCell.dts 0] ∧
      ¬ (clean_weather_data exC2).rows.Pairwise (fun a b => a.date ≠ b.date) := by
  constructor
  · decide
  · decide

/-- C2 (amended): for every input with a date column and no unparseable date,
the sequence returned by clean is sorted ascending by date; duplicate dates
are not removed (see the counterexample). -/
theorem c2_clean_sorted (df : WDF) (hd : df.hasDate = true)
    (hb : ∀ r ∈ df.rows, r.date ≠ DateCell.sBad) :
    (clean_weather_data df).rows.Pairwise wle := by
  by_cases h0 : df.rows = []
  · unfold clean_weather_data
    rw [if_pos (by simp [h0])]
    simp [h0]
  · rw [clean_eq_good hd hb h0]
    exact List.sorted_insertionSort wle _

/-- C2 witness: the amended sortedness theorem applied at the counterexample
input. -/
theorem c2_witness :
    exC2.hasDate = true ∧ (∀ r ∈ exC2.rows, r.date ≠ DateCell.sBad) ∧
      (clean_weather_data exC2).rows.Pairwise wle :=
  ⟨rfl, by decide, c2_clean_sorted exC2 rfl (by decide)⟩

theorem condNonNeg_false {get : WRow → PFloat} {l : List WRow} : condNonNeg false get l = l :=
  rfl

/-- Rows that already survived the filter chain pass it again unchanged, as
long as no temperature trim is active (the temperature trim is the one
non-stable step: its percentile band is recomputed from the current rows). -/
theorem cleanFilters_stable {df df2 : WDF}
    (e1 : df2.hasTMAX = false) (e2 : df2.hasTMIN = false) (e3 : df2.hasTAVG = false)
    (e4 : df2.hasPRCP = df.hasPRCP) (e5 : df2.hasAWND = df.hasAWND)
    {base S : List WRow} (hna : ∀ x ∈ S, x.date ≠ DateCell.na)
    (hsub : ∀ x ∈ S, x ∈ cleanFilters df base) :
    cleanFilters df2 S = S := by
  unfold cleanFilters
  rw [e1, e2, e3, e4, e5, condTemp_false, condTemp_false, condTemp_false]
  rw [List.filter_eq_self.mpr (fun x hx2 => decide_eq_true (hna x hx2))]
  rw [condNonNeg_eq_self (fun hf x hx2 => (cleanFilters_props (hsub x hx2)).2.2.2.2.2.1 hf)]
  exact condNonNeg_eq_self (fun hf x hx2 => (cleanFilters_props (hsub x hx2)).2.2.2.2.2.2 hf)

/-- Input for the C3 counterexample: four records with distinct dates and
TMAX values 1..4. -/
def exC3 : WDF :=
  ⟨true, true, false, false, false, false, false,
    [⟨.dts 0, some 1, none, none, none, none, none⟩,
     ⟨.dts 1, some 2, none, none, none, none, none⟩,
     ⟨.dts 2, some 3, none, none, none, none, none⟩,
     ⟨.dts 3, some 4, none, none, none, none, none⟩]⟩

/-- One application of clean to `exC3` keeps the two middle records. -/
def exC3mid : WDF :=
  ⟨true, true, false, false, false, false, false,
    [⟨.dts 1, some 2, none, none, none, none, none⟩,
     ⟨.dts 2, some 3, none, none, none, none, none⟩]⟩

theorem quantC3a : quantileQ (1 / 100) [1, 2, 3, 4] = some (103 / 100) := by
  have hf : Int.floor ((1 : ℚ) / 100 * ((4 : ℚ) - 1)) = 0 := by
    rw [Int.floor_eq_iff] <;> norm_num
  norm_num [quantileQ, List.insertionSort, List.orderedInsert, hf]

theorem quantC3b : quantileQ (99 / 100) [1, 2, 3, 4] = some (397 / 100) := by
  have hf : Int.floor ((99 : ℚ) / 100 * ((4 : ℚ) - 1)) = 2 := by
    rw [Int.floor_eq_iff] <;> norm_num
  norm_num [quantileQ, List.insertionSort, List.orderedInsert, hf,
    (show Int.toNat 2 = 2 from rfl)]

theorem quantC3c : quantileQ (1 / 100) [2, 3] = some (201 / 100) := by
  have hf : Int.floor ((1 : ℚ) / 100 * ((2 : ℚ) - 1)) = 0 := by
    rw [Int.floor_eq_iff] <;> norm_num
  norm_num [quantileQ, List.insertionSort, List.orderedInsert, hf]

theorem quantC3d : quantileQ (99 / 100) [2, 3] = some (299 / 100) := by
  have hf : Int.floor ((99 : ℚ) / 100 * ((2 : ℚ) - 1)) = 0 := by
    rw [Int.floor_eq_iff] <;> norm_num
  norm_num [quantileQ, List.insertionSort, List.orderedInsert, hf]

theorem bandC3a : keepInBand (fun r => r.tmax) (some (103 / 100)) (some (397 / 100))
    ⟨.dts 0, some 1, none, none, none, none, none⟩ = false := by
  norm_num [keepInBand]

theorem bandC3b : keepInBand (fun r => r.tmax) (some (103 / 100)) (some (397 / 100))
    ⟨.dts 1, some 2, none, none, none, none, none⟩ = true := by
  norm_num [keepInBand]

theorem bandC3c : keepInBand (fun r => r.tmax) (some (103 / 100)) (some (397 / 100))
    ⟨.dts 2, some 3, none, none, none, none, none⟩ = true := by
  norm_num [keepInBand]

theorem bandC3d : keepInBand (fun r => r.tmax) (some (103 / 100)) (some (397 / 100))
    ⟨.dts 3, some 4, none, none, none, none, none⟩ = false := by
  norm_num [keepInBand]

theorem bandC3e : keepInBand (fun r => r.tmax) (some (201 / 100)) (some (299 / 100))
    ⟨.dts 1, some 2, none, none, none, none, none⟩ = false := by
  norm_num [keepInBand]

theorem bandC3f : keepInBand (fun r => r.tmax) (some (201 / 100)) (some (299 / 100))
    ⟨.dts 2, some 3, none, none, none, none, none⟩ = false := by
  norm_num [keepInBand]

/-- Evaluation of the first clean pass on `exC3`: the 1st/99th percentile band
over TMAX values 1..4 is [1.03, 3.97], so records 1 and 4 are trimmed. -/
theorem clean_exC3 : clean_weather_data exC3 = exC3mid := by
  rw [clean_eq_good rfl (by decide) (by decide)]
  have hmap : exC3.rows.map parsedRowW = exC3.rows := by
    simp [exC3, parsedRowW, parseDate]
  rw [hmap]
  have hfil : cleanFilters exC3 exC3.rows = exC3mid.rows := by
    unfold cleanFilters
    rw [show exC3.hasAWND = false from rfl, show exC3.hasPRCP = false from rfl,
      show exC3.hasTAVG = false from rfl, show exC3.hasTMIN = false from rfl,
      show exC3.hasTMAX = true from rfl]
    rw [condNonNeg_false, condNonNeg_false, condTemp_false, condTemp_false, condTemp_true]
    rw [show exC3.rows.filter (fun r => decide (r.date ≠ DateCell.na)) = exC3.rows from rfl]
    rw [show exC3.rows.filterMap (fun r => r.tmax) = [1, 2, 3, 4] from rfl]
    rw [quantC3a, quantC3b]
    simp only [exC3, exC3mid, List.filter_cons, List.filter_nil, bandC3a, bandC3b, bandC3c,
      bandC3d, if_true, if_false]
    rfl
  rw [hfil]
  rfl

/-- Evaluation of the second clean pass: over the surviving TMAX values 2,3
the recomputed band is [2.01, 2.99], which trims both remaining records. -/
theorem clean_exC3mid :
    clean_weather_data exC3mid = ⟨true, true, false, false, false, false, false, []⟩ := by
  rw [clean_eq_good rfl (by decide) (by decide)]
  have hmap : exC3mid.rows.map parsedRowW = exC3mid.rows := by
    simp [exC3mid, parsedRowW, parseDate]
  rw [hmap]
  have hfil : cleanFilters exC3mid exC3mid.rows = [] := by
    unfold cleanFilters
    rw [show exC3mid.hasAWND = false from rfl, show exC3mid.hasPRCP = false from rfl,
      show exC3mid.hasTAVG = false from rfl, show exC3mid.hasTMIN = false from rfl,
      show exC3mid.hasTMAX = true from rfl]
    rw [condNonNeg_false, condNonNeg_false, condTemp_false, condTemp_false, condTemp_true]
    rw [show exC3mid.rows.filter (fun r => decide (r.date ≠ DateCell.na)) = exC3mid.rows from rfl]
    rw [show exC3mid.rows.filterMap (fun r => r.tmax) = [2, 3] from rfl]
    rw [quantC3c, quantC3d]
    simp only [exC3mid, List.filter_cons, List.filter_nil, bandC3e, bandC3f, if_false]
    rfl
  rw [hfil]
  rfl

/-- C3 counterexample: `clean_weather_data` is not idempotent.  On TMAX values
1..4 the first pass trims to the percentile band [1.03, 3.97] (keeping 2 and
3), and the second pass recomputes the band over the survivors as
[2.01, 2.99] (keeping nothing), so `clean(clean(x)) ≠ clean(x)`. -/
theorem c3_counterexample :
    clean_weather_data (clean_weather_data exC3) ≠ clean_weather_data exC3 := by
  rw [clean_exC3, clean_exC3mid]
  decide

/-- C3 (amended): clean is not idempotent.  With a temperature column present
the per-series percentile trim can remove further records on a second
application (see the counterexample).  On inputs with no temperature column
(no TMAX, TMIN or TAVG) a second application neither adds nor drops any
record: the records of `clean (clean x)` are a permutation of those of
`clean x`.  Exact equality is not claimed even then, because the relative
order of equal-date records under `sort_values`' unstable default quicksort
is not guaranteed to be preserved by a re-sort. -/
theorem c3_clean_second_pass_perm (df : WDF) (hx : df.hasTMAX = false)
    (hn : df.hasTMIN = false) (hv : df.hasTAVG = false) :
    (clean_weather_data (clean_weather_data df)).rows.Perm (clean_weather_data df).rows := by
  by_cases h0 : df.rows = []
  · have hfix : clean_weather_data df = df := by
      unfold clean_weather_data
      rw [if_pos (by simp [h0])]
    simp only [hfix]
    exact List.Perm.refl _
  by_cases hd : df.hasDate = true
  case neg =>
    have hfix : clean_weather_data df = df := by
      unfold clean_weather_data cleanExc
      rw [if_neg (by simpa [List.isEmpty_iff] using h0), if_neg hd]
    simp only [hfix]
    exact List.Perm.refl _
  case pos =>
    by_cases hb : ∀ r ∈ df.rows, r.date ≠ DateCell.sBad
    case neg =>
      have hbad : ∃ r ∈ df.rows, r.date = DateCell.sBad := by
        push_neg at hb
        exact hb
      obtain ⟨e, he⟩ := parseRowsW_error hbad
      have hfix : clean_weather_data df = df := by
        unfold clean_weather_data cleanExc
        rw [if_neg (by simpa [List.isEmpty_iff] using h0), if_pos hd, he]
      simp only [hfix]
      exact List.Perm.refl _
    case pos =>
      rw [clean_eq_good hd hb h0]
      by_cases hS0 : (cleanFilters df (df.rows.map parsedRowW)).insertionSort wle = []
      · unfold clean_weather_data
        rw [if_pos (by simp [hS0])]
      · have hmem : ∀ x ∈ (cleanFilters df (df.rows.map parsedRowW)).insertionSort wle,
            ∃ d, x.date = DateCell.dts d := by
          intro x hxS
          have hx1 : x ∈ cleanFilters df (df.rows.map parsedRowW) :=
            (List.mem_insertionSort wle).mp hxS
          obtain ⟨hx2, hdna, _⟩ := cleanFilters_props hx1
          obtain ⟨r, hr, rfl⟩ := List.mem_map.mp hx2
          rcases parsedRowW_date (hb r hr) with ⟨d, hd2⟩ | hd2
          · exact ⟨d, hd2⟩
          · exact absurd hd2 hdna
        have hgood2 := @clean_eq_good { df with rows :=
            (cleanFilters df (df.rows.map parsedRowW)).insertionSort wle } hd
          (fun r hr => by obtain ⟨d, hdd⟩ := hmem r hr; simp [hdd]) hS0
        have hmap : ((cleanFilters df (df.rows.map parsedRowW)).insertionSort wle).map parsedRowW
            = (cleanFilters df (df.rows.map parsedRowW)).insertionSort wle := by
          calc ((cleanFilters df (df.rows.map parsedRowW)).insertionSort wle).map parsedRowW
              = ((cleanFilters df (df.rows.map parsedRowW)).insertionSort wle).map id :=
                List.map_congr_left fun x hx2 => parsedRowW_id (Or.inl (hmem x hx2))
            _ = (cleanFilters df (df.rows.map parsedRowW)).insertionSort wle :=
                List.map_id _
        have hstable : cleanFilters { df with rows :=
              (cleanFilters df (df.rows.map parsedRowW)).insertionSort wle }
              ((cleanFilters df (df.rows.map parsedRowW)).insertionSort wle)
            = (cleanFilters df (df.rows.map parsedRowW)).insertionSort wle :=
          @cleanFilters_stable df { df with rows :=
              (cleanFilters df (df.rows.map parsedRowW)).insertionSort wle } hx hn hv rfl rfl
            (df.rows.map parsedRowW) ((cleanFilters df (df.rows.map parsedRowW)).insertionSort wle)
            (fun x hx2 => (cleanFilters_props ((List.mem_insertionSort wle).mp hx2)).2.1)
            (fun x hx2 => (List.mem_insertionSort wle).mp hx2)
        rw [hmap, hstable] at hgood2
        rw [hgood2]
        exact List.perm_insertionSort wle _

/-- Input for the C3 witness: a temperature-free frame with unsorted dates and
a PRCP column containing a negative and a missing value. -/
def exC3w : WDF :=
  ⟨true, false, false, false, true, false, false,
    [⟨.dts 5, none, none, none, some 1, none, none⟩,
     ⟨.dts 2, none, none, none, some (-3), none, none⟩,
     ⟨.dts 9, none, none, none, none, none, none⟩,
     ⟨.dts 0, none, none, none, some 0, none, none⟩]⟩

/-- C3 witness: the amended second-pass permutation theorem applied at a
concrete temperature-free input. -/
theorem c3_witness :
    exC3w.hasTMAX = false ∧ exC3w.hasTMIN = false ∧ exC3w.hasTAVG = false ∧
      (clean_weather_data (clean_weather_data exC3w)).rows.Perm
        (clean_weather_data exC3w).rows :=
  ⟨rfl, rfl, rfl, c3_clean_second_pass_perm exC3w rfl rfl rfl⟩

/-- C10: for every input series (with its date column and parseable dates, as
the data model requires) in which a temperature column is present, clean drops
every record whose value for that column is missing: a NaN value fails both
percentile-band comparisons of the outlier filter, so every surviving record
has a non-missing value in each present temperature column. -/
theorem c10_clean_drops_missing_temps (df : WDF) (hd : df.hasDate = true)
    (hb : ∀ r ∈ df.rows, r.date ≠ DateCell.sBad) :
    (df.hasTMAX = true → ∀ r ∈ (clean_weather_data df).rows, r.tmax.isSome = true) ∧
      (df.hasTMIN = true → ∀ r ∈ (clean_weather_data df).rows, r.tmin.isSome = true) ∧
      (df.hasTAVG = true → ∀ r ∈ (clean_weather_data df).rows, r.tavg.isSome = true) := by
  by_cases h0 : df.rows = []
  · have hfix : clean_weather_data df = df := by
      unfold clean_weather_data
      rw [if_pos (by simp [h0])]
    rw [hfix, h0]
    simp
  · rw [clean_eq_good hd hb h0]
    refine ⟨fun hf r hr => ?_, fun hf r hr => ?_, fun hf r hr => ?_⟩ <;>
    · have h2 := cleanFilters_props ((List.mem_insertionSort wle).mp hr)
      first
      | exact h2.2.2.1 hf
      | exact h2.2.2.2.1 hf
      | exact h2.2.2.2.2.1 hf

/-- Input for the C10 witness: a TMAX column with one present and one missing
value. -/
def exC10 : WDF :=
  ⟨true, true, false, false, false, false, false,
    [⟨.dts 0, some 50, none, none, none, none, none⟩,
     ⟨.dts 1, none, none, none, none, none, none⟩]⟩

/-- C10 witness: the theorem applied at a concrete input containing a record
with a missing TMAX value. -/
theorem c10_witness :
    exC10.hasDate = true ∧ (∀ r ∈ exC10.rows, r.date ≠ DateCell.sBad) ∧
      exC10.hasTMAX = true ∧
      (∀ r ∈ (clean_weather_data exC10).rows, r.tmax.isSome = true) :=
  ⟨rfl, by decide, rfl, (c10_clean_drops_missing_temps exC10 rfl (by decide)).1 rfl⟩

theorem keys_setE (m : EMap) (k : String) (v : List EventD) :
    (setE m k v).map Prod.fst = m.map Prod.fst := by
  induction m with
  | nil => rfl
  | cons p rest ih =>
    obtain ⟨k1, v1⟩ := p
    by_cases h : k1 = k
    · subst h
      simp [setE, ih]
    · simp [setE, h, ih]

theorem keys_stepRun (flag : Bool) (k : String) (v : List EventD) (m : EMap) :
    (stepRun flag k v m).map Prod.fst = m.map Prod.fst := by
  cases flag with
  | false => rfl
  | true => exact keys_setE m k v

theorem stepRun_false {k : String} {v : List EventD} {m : EMap} : stepRun false k v m = m :=
  rfl

theorem lookupS_setE_ne {m : EMap} {k k2 : String} {v : List EventD} (h : k ≠ k2) :
    lookupS (setE m k v) k2 = lookupS m k2 := by
  induction m with
  | nil => rfl
  | cons p rest ih =>
    obtain ⟨k1, v1⟩ := p
    by_cases h1 : k1 = k
    · subst h1
      simp only [setE, if_pos rfl, lookupS, if_neg h, ih]
    · simp only [setE, if_neg h1, lookupS, ih]

theorem lookupS_setE_self {m : EMap} {k : String} {v : List EventD}
    (hs : (lookupS m k).isSome = true) : lookupS (setE m k v) k = some v := by
  induction m with
  | nil => simp [lookupS] at hs
  | cons p rest ih =>
    obtain ⟨k1, v1⟩ := p
    by_cases h1 : k1 = k
    · subst h1
      simp [setE, lookupS]
    · simp only [lookupS, if_neg h1] at hs
      simp only [setE, if_neg h1, lookupS, if_neg h1]
      exact ih hs

theorem lookupS_stepRun_ne {flag : Bool} {k k2 : String} {v : List EventD} {m : EMap}
    (h : k ≠ k2) : lookupS (stepRun flag k v m) k2 = lookupS m k2 := by
  cases flag with
  | false => rfl
  | true => exact lookupS_setE_ne h

theorem lookupS_stepRun_self {flag : Bool} {k : String} {v : List EventD} {m : EMap}
    (hs : (lookupS m k).isSome = true) :
    lookupS (stepRun flag k v m) k = if flag then some v else lookupS m k := by
  cases flag with
  | false => rfl
  | true => simpa using @lookupS_setE_self m k v hs

theorem stepPoint_ok (flag : Bool) (k : String) (l : List EventD) (m : EMap) :
    stepPoint flag k (.ok l) m = .ok (stepRun flag k l m) := by
  cases flag <;> rfl

theorem stepPoint_ok_shape {flag : Bool} {k : String}
    {r : Except (PyErr × List EventD) (List EventD)} {m e : EMap}
    (h : stepPoint flag k r m = .ok e) : ∃ l, e = stepRun flag k l m := by
  cases flag with
  | false =>
    refine ⟨[], ?_⟩
    simpa [stepPoint] using h.symm
  | true =>
    cases r with
    | ok l =>
      refine ⟨l, ?_⟩
      simp only [stepPoint, if_true] at h
      simpa [stepRun] using h.symm
    | error x => simp [stepPoint] at h

theorem stepPoint_error_shape {flag : Bool} {k : String}
    {r : Except (PyErr × List EventD) (List EventD)} {m : EMap} {x : PyErr × EMap}
    (h : stepPoint flag k r m = .error x) :
    flag = true ∧ ∃ l, x.2 = setE m k l := by
  cases flag with
  | false => simp [stepPoint] at h
  | true =>
    cases r with
    | ok l => simp [stepPoint] at h
    | error y =>
      obtain ⟨e, l⟩ := y
      simp only [stepPoint, if_true] at h
      cases h
      exact ⟨rfl, l, rfl⟩

/-- The per-record contribution of a point-event loop, as the source computes
it: emit one event with the row's value and derived severity whenever the
value is present and above the threshold. -/
def pointSpec (get : WRow → PFloat) (thr : ℚ) (sev : ℚ → String) (r : WRow) : Option EventD :=
  match get r with
  | some v => if thr < v then some (.pointE (dateKey r.date) v (sev v)) else none
  | none => none

theorem pointEventsBuild_ok {get : WRow → PFloat} {thr : ℚ} {sev : ℚ → String}
    {rows : List WRow} (hdt : ∀ r ∈ rows, ∃ d, r.date = DateCell.dts d) :
    pointEventsBuild true get thr sev rows = .ok (rows.filterMap (pointSpec get thr sev)) := by
  induction rows with
  | nil => rfl
  | cons r rs ih =>
    have hr := hdt r (List.mem_cons_self r rs)
    have hrs : ∀ x ∈ rs, ∃ d, x.date = DateCell.dts d :=
      fun x hx => hdt x (List.mem_cons_of_mem r hx)
    obtain ⟨d, hd⟩ := hr
    cases hg : get r with
    | none => simp [pointEventsBuild, hg, ih hrs, pointSpec, List.filterMap_cons]
    | some v =>
      by_cases hv : thr < v
      · simp [pointEventsBuild, hg, hv, hd, ih hrs, pointSpec, List.filterMap_cons, dateKey]
      · simp [pointEventsBuild, hg, hv, ih hrs, pointSpec, List.filterMap_cons]

/-- Decidable test for an already-coerced datetime cell. -/
def isDts : DateCell → Bool
  | .dts _ => true
  | _ => false

theorem isDts_exists {c : DateCell} (h : isDts c = true) : ∃ d, c = DateCell.dts d := by
  cases c with
  | dts d => exact ⟨d, rfl⟩
  | sGood d => simp [isDts] at h
  | sBad => simp [isDts] at h
  | na => simp [isDts] at h

/-- On the good path (date column present, all dates already coerced) no step
of `detect_extreme_events` raises, and the result is the chain of guarded
category assignments over the initial all-empty dict. -/
theorem detectExc_ok (df : WDF) (hd : df.hasDate = true)
    (hdt : ∀ r ∈ df.rows, ∃ d, r.date = DateCell.dts d) :
    detectExc df = .ok
      (stepRun df.hasPRCP "drought_periods"
        (detectConsecutiveEvents df.hasDate (fun r => r.prcp) 0 7 .eqc df.rows)
        (stepRun df.hasAWND "high_winds"
          (df.rows.filterMap (pointSpec (fun r => r.awnd) 20 sevWind))
          (stepRun df.hasSNOW "snowstorms"
            (df.rows.filterMap (pointSpec (fun r => r.snow) 6 sevStorm))
            (stepRun df.hasPRCP "heavy_rainfall"
              (df.rows.filterMap (pointSpec (fun r => r.prcp) 2 sevHeavy))
              (stepRun df.hasTMIN "cold_spells"
                (detectConsecutiveEvents df.hasDate (fun r => r.tmin) 32 3 .lt df.rows)
                (stepRun df.hasTMAX "heatwaves"
                  (detectConsecutiveEvents df.hasDate (fun r => r.tmax) 90 3 .gt df.rows)
                  initEvents)))))) := by
  unfold detectExc
  rw [hd, pointEventsBuild_ok hdt, pointEventsBuild_ok hdt, pointEventsBuild_ok hdt]
  simp only [stepPoint_ok]

/-- `detect_extreme_events` on the good path, for non-empty input. -/
theorem detect_eq_good (df : WDF) (hd : df.hasDate = true)
    (hdt : ∀ r ∈ df.rows, ∃ d, r.date = DateCell.dts d) (h0 : df.rows ≠ []) :
    detect_extreme_events df =
      stepRun df.hasPRCP "drought_periods"
        (detectConsecutiveEvents df.hasDate (fun r => r.prcp) 0 7 .eqc df.rows)
        (stepRun df.hasAWND "high_winds"
          (df.rows.filterMap (pointSpec (fun r => r.awnd) 20 sevWind))
          (stepRun df.hasSNOW "snowstorms"
            (df.rows.filterMap (pointSpec (fun r => r.snow) 6 sevStorm))
            (stepRun df.hasPRCP "heavy_rainfall"
              (df.rows.filterMap (pointSpec (fun r => r.prcp) 2 sevHeavy))
              (stepRun df.hasTMIN "cold_spells"
                (detectConsecutiveEvents df.hasDate (fun r => r.tmin) 32 3 .lt df.rows)
                (stepRun df.hasTMAX "heatwaves"
                  (detectConsecutiveEvents df.hasDate (fun r => r.tmax) 90 3 .gt df.rows)
                  initEvents))))) := by
  unfold detect_extreme_events
  rw [if_neg (by simpa [List.isEmpty_iff] using h0), detectExc_ok df hd hdt]

/-- Input for the C9 counterexample: one record with wind speed exactly
50.0 mph. -/
def exC9 : WDF :=
  ⟨true, false, false, false, false, true, false,
    [⟨.dts 0, none, none, none, none, some 50, none⟩]⟩

/-- C9 counterexample: the source computes
`'high' if wind < 50.0 else 'extreme'`, so a record with wind speed exactly
50.0 gets severity 'extreme', while the claim says 'high'. -/
theorem c9_counterexample :
    lookupS (detect_extreme_events exC9) "high_winds" =
      some [EventD.pointE 0 50 "extreme"] := by
  decide

/-- C9 (amended): for every record with wind_speed > 20.0, detect emits a
high_wind point event whose severity is 'extreme' exactly when wind_speed is
at least 50.0 and 'high' otherwise; a record with wind_speed exactly 50.0 has
severity 'extreme'.  Stated for series with a date column and coerced dates
(as produced by clean), where the point-event loop cannot raise. -/
theorem c9_high_wind_severity (df : WDF) (hd : df.hasDate = true)
    (hdt : ∀ r ∈ df.rows, isDts r.date = true) (ha : df.hasAWND = true) :
    lookupS (detect_extreme_events df) "high_winds" =
      some (df.rows.filterMap (fun r =>
        match r.awnd with
        | some v =>
          if 20 < v then
            some (EventD.pointE (dateKey r.date) v (if v < 50 then "high" else "extreme"))
          else none
        | none => none)) := by
  by_cases h0 : df.rows = []
  · unfold detect_extreme_events
    rw [if_pos (by simp [h0]), h0]
    decide
  · rw [detect_eq_good df hd (fun r hr => isDts_exists (hdt r hr)) h0]
    rw [lookupS_stepRun_ne (by decide)]
    rw [lookupS_stepRun_self (by
      rw [lookupS_stepRun_ne (by decide), lookupS_stepRun_ne (by decide),
        lookupS_stepRun_ne (by decide), lookupS_stepRun_ne (by decide)]
      decide)]
    rw [ha, if_pos rfl]
    rfl

/-- Input for the C9 witness: wind speeds 30 (high), 60 (extreme), 10 (no
event) and one missing value. -/
def exC9w : WDF :=
  ⟨true, false, false, false, false, true, false,
    [⟨.dts 0, none, none, none, none, some 30, none⟩,
     ⟨.dts 1, none, none, none, none, some 60, none⟩,
     ⟨.dts 2, none, none, none, none, some 10, none⟩,
     ⟨.dts 3, none, none, none, none, none, none⟩]⟩

/-- C9 witness: the amended severity theorem applied at a concrete input. -/
theorem c9_witness :
    exC9w.hasDate = true ∧ (∀ r ∈ exC9w.rows, isDts r.date = true) ∧
      exC9w.hasAWND = true ∧
      lookupS (detect_extreme_events exC9w) "high_winds" =
        some (exC9w.rows.filterMap (fun r =>
          match r.awnd with
          | some v =>
            if 20 < v then
              some (EventD.pointE (dateKey r.date) v (if v < 50 then "high" else "extreme"))
            else none
          | none => none)) :=
  ⟨rfl, by decide, rfl, c9_high_wind_severity exC9w rfl (by decide) rfl⟩

/-- Every result `detect_extreme_events` can produce — empty input, the good
path, or any caught mid-loop exception — is a chain of guarded category
assignments over the initial dict, and a category whose source column is
absent is never assigned. -/
theorem detect_shape (df : WDF) :
    ∃ (bH bC bR bS bW bD : Bool) (lH lC lR lS lW lD : List EventD),
      detect_extreme_events df =
        stepRun bD "drought_periods" lD (stepRun bW "high_winds" lW
          (stepRun bS "snowstorms" lS (stepRun bR "heavy_rainfall" lR
            (stepRun bC "cold_spells" lC (stepRun bH "heatwaves" lH initEvents))))) ∧
      (df.hasTMAX = false → bH = false) ∧ (df.hasTMIN = false → bC = false) ∧
      (df.hasPRCP = false → bR = false ∧ bD = false) ∧
      (df.hasSNOW = false → bS = false) ∧ (df.hasAWND = false → bW = false) := by
  by_cases h0 : df.rows.isEmpty
  · refine ⟨false, false, false, false, false, false, [], [], [], [], [], [],
      ?_, fun _ => rfl, fun _ => rfl, fun _ => ⟨rfl, rfl⟩, fun _ => rfl, fun _ => rfl⟩
    unfold detect_extreme_events
    rw [if_pos h0]
    rfl
  · simp only [detect_extreme_events, detectExc, h0, Bool.false_eq_true, if_false]
    cases hsp1 : stepPoint df.hasPRCP "heavy_rainfall"
        (pointEventsBuild df.hasDate (fun r => r.prcp) 2 sevHeavy df.rows)
        (stepRun df.hasTMIN "cold_spells"
          (detectConsecutiveEvents df.hasDate (fun r => r.tmin) 32 3 .lt df.rows)
          (stepRun df.hasTMAX "heatwaves"
            (detectConsecutiveEvents df.hasDate (fun r => r.tmax) 90 3 .gt df.rows)
            initEvents)) with
    | error x =>
      obtain ⟨hpT, l, hx2⟩ := stepPoint_error_shape hsp1
      refine ⟨df.hasTMAX, df.hasTMIN, true, false, false, false,
        detectConsecutiveEvents df.hasDate (fun r => r.tmax) 90 3 .gt df.rows, detectConsecutiveEvents df.hasDate (fun r => r.tmin) 32 3 .lt df.rows, l, [], [], [], ?_, fun hf => hf, fun hf => hf,
        fun hp => absurd (hp ▸ hpT) (by decide), fun _ => rfl, fun _ => rfl⟩
      exact hx2
    | ok e3 =>
      obtain ⟨l3, he3⟩ := stepPoint_ok_shape hsp1
      dsimp only
      cases hsp2 : stepPoint df.hasSNOW "snowstorms"
          (pointEventsBuild df.hasDate (fun r => r.snow) 6 sevStorm df.rows) e3 with
      | error x =>
        obtain ⟨hsT, l, hx2⟩ := stepPoint_error_shape hsp2
        refine ⟨df.hasTMAX, df.hasTMIN, df.hasPRCP, true, false, false,
          detectConsecutiveEvents df.hasDate (fun r => r.tmax) 90 3 .gt df.rows, detectConsecutiveEvents df.hasDate (fun r => r.tmin) 32 3 .lt df.rows, l3, l, [], [], ?_, fun hf => hf, fun hf => hf,
          fun hp => ⟨hp, rfl⟩, fun hs => absurd (hs ▸ hsT) (by decide), fun _ => rfl⟩
        exact hx2.trans (congrArg (fun m => setE m "snowstorms" l) he3)
      | ok e4 =>
        obtain ⟨l4, he4⟩ := stepPoint_ok_shape hsp2
        dsimp only
        cases hsp3 : stepPoint df.hasAWND "high_winds"
            (pointEventsBuild df.hasDate (fun r => r.awnd) 20 sevWind df.rows) e4 with
        | error x =>
          obtain ⟨hwT, l, hx2⟩ := stepPoint_error_shape hsp3
          refine ⟨df.hasTMAX, df.hasTMIN, df.hasPRCP, df.hasSNOW, true, false,
            detectConsecutiveEvents df.hasDate (fun r => r.tmax) 90 3 .gt df.rows, detectConsecutiveEvents df.hasDate (fun r => r.tmin) 32 3 .lt df.rows, l3, l4, l, [], ?_, fun hf => hf, fun hf => hf,
            fun hp => ⟨hp, rfl⟩, fun hs => hs,
            fun hw => absurd (hw ▸ hwT) (by decide)⟩
          exact hx2.trans (congrArg (fun m => setE m "high_winds" l)
            (he4.trans (congrArg (stepRun df.hasSNOW "snowstorms" l4) he3)))
        | ok e5 =>
          obtain ⟨l5, he5⟩ := stepPoint_ok_shape hsp3
          dsimp only
          refine ⟨df.hasTMAX, df.hasTMIN, df.hasPRCP, df.hasSNOW, df.hasAWND, df.hasPRCP,
            detectConsecutiveEvents df.hasDate (fun r => r.tmax) 90 3 .gt df.rows, detectConsecutiveEvents df.hasDate (fun r => r.tmin) 32 3 .lt df.rows, l3, l4, l5, detectConsecutiveEvents df.hasDate (fun r => r.prcp) 0 7 .eqc df.rows, ?_, fun hf => hf, fun hf => hf,
            fun hp => ⟨hp, hp⟩, fun hs => hs, fun hw => hw⟩
          exact congrArg
            (stepRun df.hasPRCP "drought_periods"
              (detectConsecutiveEvents df.hasDate (fun r => r.prcp) 0 7 .eqc df.rows))
            (he5.trans (congrArg (stepRun df.hasAWND "high_winds" l5)
              (he4.trans (congrArg (stepRun df.hasSNOW "snowstorms" l4) he3))))

/-- Input for the C6 counterexample: a non-empty series with no TMAX column. -/
def exC6 : WDF :=
  ⟨true, false, false, false, false, false, false,
    [⟨.dts 0, none, none, none, none, none, none⟩]⟩

/-- C6 counterexample: `detect_extreme_events` initializes the result dict
with all six category keys before looking at any column, so on a non-empty
series lacking TMAX the key 'heatwaves' is still present (mapped to an empty
list) — the claim that the key is omitted entirely is false. -/
theorem c6_counterexample :
    exC6.rows ≠ [] ∧ exC6.hasTMAX = false ∧
      "heatwaves" ∈ (detect_extreme_events exC6).map Prod.fst ∧
      lookupS (detect_extreme_events exC6) "heatwaves" = some [] := by
  refine ⟨by decide, rfl, by decide, by decide⟩

/-- C6 (amended): for every input the mapping returned by detect carries all
six category keys; a category whose source field is absent keeps its key and
maps to an empty list (its events are omitted, never its key). -/
theorem c6_missing_field_category_empty (df : WDF) :
    (detect_extreme_events df).map Prod.fst =
      ["heatwaves", "cold_spells", "heavy_rainfall", "snowstorms", "high_winds",
        "drought_periods"] ∧
      (df.hasTMAX = false → lookupS (detect_extreme_events df) "heatwaves" = some []) ∧
      (df.hasTMIN = false → lookupS (detect_extreme_events df) "cold_spells" = some []) ∧
      (df.hasPRCP = false → lookupS (detect_extreme_events df) "heavy_rainfall" = some [] ∧
        lookupS (detect_extreme_events df) "drought_periods" = some []) ∧
      (df.hasSNOW = false → lookupS (detect_extreme_events df) "snowstorms" = some []) ∧
      (df.hasAWND = false → lookupS (detect_extreme_events df) "high_winds" = some []) := by
  obtain ⟨bH, bC, bR, bS, bW, bD, lH, lC, lR, lS, lW, lD, hEq, iH, iC, iR, iS, iW⟩ :=
    detect_shape df
  rw [hEq]
  refine ⟨?_, ?_, ?_, ?_, ?_, ?_⟩
  · rw [keys_stepRun, keys_stepRun, keys_stepRun, keys_stepRun, keys_stepRun, keys_stepRun]
    decide
  · intro hf
    rw [lookupS_stepRun_ne (by decide), lookupS_stepRun_ne (by decide),
      lookupS_stepRun_ne (by decide), lookupS_stepRun_ne (by decide),
      lookupS_stepRun_ne (by decide), iH hf, stepRun_false]
    decide
  · intro hf
    rw [lookupS_stepRun_ne (by decide), lookupS_stepRun_ne (by decide),
      lookupS_stepRun_ne (by decide), lookupS_stepRun_ne (by decide),
      iC hf, stepRun_false, lookupS_stepRun_ne (by decide)]
    decide
  · intro hf
    obtain ⟨hr1, hr2⟩ := iR hf
    constructor
    · rw [lookupS_stepRun_ne (by decide), lookupS_stepRun_ne (by decide),
        lookupS_stepRun_ne (by decide), hr1, stepRun_false,
        lookupS_stepRun_ne (by decide), lookupS_stepRun_ne (by decide)]
      decide
    · rw [hr2, stepRun_false, lookupS_stepRun_ne (by decide),
        lookupS_stepRun_ne (by decide), hr1, stepRun_false,
        lookupS_stepRun_ne (by decide), lookupS_stepRun_ne (by decide)]
      decide
  · intro hf
    rw [lookupS_stepRun_ne (by decide), lookupS_stepRun_ne (by decide),
      iS hf, stepRun_false, lookupS_stepRun_ne (by decide),
      lookupS_stepRun_ne (by decide), lookupS_stepRun_ne (by decide)]
    decide
  · intro hf
    rw [lookupS_stepRun_ne (by decide), iW hf, stepRun_false,
      lookupS_stepRun_ne (by decide), lookupS_stepRun_ne (by decide),
      lookupS_stepRun_ne (by decide), lookupS_stepRun_ne (by decide)]
    decide

/-- Input for the C6 witness: a record with only precipitation data. -/
def exC6w : WDF :=
  ⟨true, false, false, false, true, false, false,
    [⟨.dts 0, none, none, none, some 3, none, none⟩]⟩

/-- C6 witness: the amended theorem applied at a concrete input lacking the
TMAX, TMIN, SNOW and AWND columns. -/
theorem c6_witness :
    (detect_extreme_events exC6w).map Prod.fst =
      ["heatwaves", "cold_spells", "heavy_rainfall", "snowstorms", "high_winds",
        "drought_periods"] ∧
      lookupS (detect_extreme_events exC6w) "heatwaves" = some [] ∧
      lookupS (detect_extreme_events exC6w) "high_winds" = some [] :=
  ⟨(c6_missing_field_category_empty exC6w).1,
    (c6_missing_field_category_empty exC6w).2.1 rfl,
    (c6_missing_field_category_empty exC6w).2.2.2.2.2 rfl⟩

/-- Each group produced by `runsBy` is non-empty, has a constant mask value,
and consists of elements of the input. -/
theorem runsBy_mem_props {α : Type} (p : α → Bool) (l : List α) :
    ∀ g ∈ runsBy p l, g ≠ [] ∧ (∃ b, ∀ a ∈ g, p a = b) ∧ ∀ a ∈ g, a ∈ l := by
  induction l with
  | nil => intro g hg; simp [runsBy] at hg
  | cons x xs ih =>
    intro g hg
    rw [runsBy] at hg
    cases hr : runsBy p xs with
    | nil =>
      rw [hr] at hg
      simp only [List.mem_singleton] at hg
      subst hg
      exact ⟨by simp, ⟨p x, by simp⟩, by simp⟩
    | cons g1 rest =>
      rw [hr] at hg
      cases g1 with
      | nil =>
        dsimp only at hg
        rcases List.mem_cons.mp hg with rfl | hgr
        · exact ⟨by simp, ⟨p x, by simp⟩, by simp⟩
        · have h2 := ih g (by rw [hr]; exact List.mem_cons_of_mem _ hgr)
          exact ⟨h2.1, h2.2.1, fun a ha => List.mem_cons_of_mem x (h2.2.2 a ha)⟩
      | cons y ys =>
        dsimp only at hg
        by_cases hp : p x = p y
        · rw [if_pos hp] at hg
          rcases List.mem_cons.mp hg with rfl | hgr
          · have hold := ih (y :: ys) (by rw [hr]; exact List.mem_cons_self _ _)
            obtain ⟨-, ⟨b, hb⟩, hsub⟩ := hold
            refine ⟨by simp, ⟨b, ?_⟩, ?_⟩
            · intro a ha
              rcases List.mem_cons.mp ha with rfl | ha2
              · rw [hp, hb y (List.mem_cons_self y ys)]
              · exact hb a ha2
            · intro a ha
              rcases List.mem_cons.mp ha with rfl | ha2
              · exact List.mem_cons_self _ _
              · exact List.mem_cons_of_mem x (hsub a ha2)
          · have h2 := ih g (by rw [hr]; exact List.mem_cons_of_mem _ hgr)
            exact ⟨h2.1, h2.2.1, fun a ha => List.mem_cons_of_mem x (h2.2.2 a ha)⟩
        · rw [if_neg hp] at hg
          rcases List.mem_cons.mp hg with rfl | hgr
          · exact ⟨by simp, ⟨p x, by simp⟩, by simp⟩
          · have h2 := ih g (by rw [hr]; exact hgr)
            exact ⟨h2.1, h2.2.1, fun a ha => List.mem_cons_of_mem x (h2.2.2 a ha)⟩

/-- Building one run event succeeds on a non-empty group of coerced dates and
agrees with the specification-side event. -/
theorem mkRunEvent_eq_spec {get : WRow → PFloat} {g : List WRow} (hne : g ≠ [])
    (hdts : ∀ a ∈ g, isDts a.date = true) :
    mkRunEvent true get g = some (specRunEvent get g) := by
  obtain ⟨a, as, rfl⟩ : ∃ a as, g = a :: as := by
    cases g with
    | nil => exact absurd rfl hne
    | cons a as => exact ⟨a, as, rfl⟩
  have hlast : (a :: as).getLast? = some ((a :: as).getLast (by simp)) :=
    List.getLast?_eq_getLast _ (by simp)
  obtain ⟨d1, hd1⟩ := isDts_exists (hdts a (List.mem_cons_self a as))
  obtain ⟨d2, hd2⟩ := isDts_exists (hdts _ (List.getLast_mem (by simp)))
  unfold mkRunEvent specRunEvent
  simp only [if_true, List.head?_cons, hlast, hd1, hd2, dateKey]

/-- The pandas group loop (mask-sum validity test, length re-check, per-group
event build) agrees with the specification-side filterMap over any group list
with the `runsBy` invariants, provided the category minimum is at least 1 (so
that a mask-false group, whose mask sum is 0, never qualifies). -/
theorem buildRunEvents_eq_spec {get : WRow → PFloat} {minC : ℕ} {p : WRow → Bool}
    (h1 : 1 ≤ minC) :
    ∀ gs : List (List WRow),
      (∀ g ∈ gs, g ≠ [] ∧ (∃ b, ∀ a ∈ g, p a = b) ∧ ∀ a ∈ g, isDts a.date = true) →
      buildRunEvents true get minC p gs =
        gs.filterMap (fun g =>
          if (g.head?.elim false p) && decide (minC ≤ g.length) then some (specRunEvent get g)
          else none) := by
  intro gs
  induction gs with
  | nil => intro _; rfl
  | cons g rest ih =>
    intro hgs
    obtain ⟨hne, ⟨b, hb⟩, hdts⟩ := hgs g (List.mem_cons_self g rest)
    have hrest := fun g2 hg2 => hgs g2 (List.mem_cons_of_mem g hg2)
    obtain ⟨a, as, rfl⟩ : ∃ a as, g = a :: as := by
      cases g with
      | nil => exact absurd rfl hne
      | cons a as => exact ⟨a, as, rfl⟩
    rw [buildRunEvents, List.filterMap_cons]
    cases b with
    | true =>
      have hcount : (a :: as).countP p = (a :: as).length :=
        List.countP_eq_length.mpr fun x hx => hb x hx
      have hhead : (a :: as).head?.elim false p = true := by
        simp [hb a (List.mem_cons_self a as)]
      rw [hcount]
      by_cases hlen : minC ≤ (a :: as).length
      · rw [if_pos hlen, if_pos hlen,
          mkRunEvent_eq_spec (by simp) hdts, ih hrest]
        have hc : ((a :: as).head?.elim false p && decide (minC ≤ (a :: as).length)) = true := by
          rw [hhead, decide_eq_true hlen]
          rfl
        simp only [hc]
        rfl
      · rw [if_neg hlen, ih hrest]
        have hc : ((a :: as).head?.elim false p && decide (minC ≤ (a :: as).length)) = false := by
          rw [decide_eq_false hlen, Bool.and_false]
        simp only [hc]
        rfl
    | false =>
      have hcount : (a :: as).countP p = 0 :=
        List.countP_eq_zero.mpr fun x hx => by simp [hb x hx]
      have hhead : (a :: as).head?.elim false p = false := by
        simp [hb a (List.mem_cons_self a as)]
      rw [hcount, if_neg (by omega), ih hrest]
      have hc : ((a :: as).head?.elim false p && decide (minC ≤ (a :: as).length)) = false := by
        rw [hhead, Bool.false_and]
      simp only [hc]
      rfl

/-- Three consecutive records with TMAX 91°F. -/
def ex91x3 : WDF :=
  ⟨true, true, false, false, false, false, false,
    [⟨.dts 0, some 91, none, none, none, none, none⟩,
     ⟨.dts 1, some 91, none, none, none, none, none⟩,
     ⟨.dts 2, some 91, none, none, none, none, none⟩]⟩

/-- Two consecutive records with TMAX 91°F. -/
def ex91x2 : WDF :=
  ⟨true, true, false, false, false, false, false,
    [⟨.dts 0, some 91, none, none, none, none, none⟩,
     ⟨.dts 1, some 91, none, none, none, none, none⟩]⟩

/-- Duration of an event dict (point events occupy one day). -/
def eventDuration : EventD → ℕ
  | .runE _ _ n _ _ _ => n
  | .pointE _ _ _ => 1

/-- C7: run detection emits, for every maximal run on which the mask is true
and whose length reaches the category minimum, exactly one event whose
duration is the run length, and nothing for shorter runs: for any cleaned
series (coerced dates) and any minimum ≥ 1 the embedded
`_detect_consecutive_events` equals the specification-side `spec_run_events`,
which by construction maps each qualifying maximal run to one event with
`duration = run length`.  In particular TMAX [91,91,91] yields one heatwave
event of duration 3 and [91,91] yields none. -/
theorem c7_run_length_boundary :
    (∀ (rows : List WRow) (get : WRow → PFloat) (thr : ℚ) (minC : ℕ) (c : CmpOp),
      1 ≤ minC → (∀ r ∈ rows, isDts r.date = true) →
      detectConsecutiveEvents true get thr minC c rows =
        spec_run_events (fun r => maskCell c thr (get r)) get minC rows) ∧
      (lookupS (detect_extreme_events ex91x3) "heatwaves").map (List.map eventDuration) =
        some [3] ∧
      lookupS (detect_extreme_events ex91x2) "heatwaves" = some [] := by
  refine ⟨fun rows get thr minC c h1 hdts => ?_, by decide, by decide⟩
  unfold detectConsecutiveEvents spec_run_events
  exact buildRunEvents_eq_spec h1 _ (fun g hg => by
    obtain ⟨hne, hconst, hsub⟩ := runsBy_mem_props _ rows g hg
    exact ⟨hne, hconst, fun a ha => hdts a (hsub a ha)⟩)

/-- C7 witness: the equivalence applied to the concrete three-record run. -/
theorem c7_witness :
    1 ≤ 3 ∧ (∀ r ∈ ex91x3.rows, isDts r.date = true) ∧
      detectConsecutiveEvents true (fun r => r.tmax) 90 3 CmpOp.gt ex91x3.rows =
        spec_run_events (fun r => maskCell CmpOp.gt 90 (r.tmax)) (fun r => r.tmax) 3
          ex91x3.rows :=
  ⟨by decide, by decide,
    c7_run_length_boundary.1 ex91x3.rows (fun r => r.tmax) 90 3 CmpOp.gt (by decide) (by decide)⟩

theorem lookupS_append {α : Type} (a b : List (String × α)) (k : String) :
    lookupS (a ++ b) k =
      match lookupS a k with
      | some v => some v
      | none => lookupS b k := by
  induction a with
  | nil => rfl
  | cons p rest ih =>
    obtain ⟨k1, v1⟩ := p
    by_cases h : k1 = k
    · simp [lookupS, h]
    · simp [lookupS, h, ih]

theorem lookupS_corrBlock (flag : Bool) (k k2 : String) (cf pf : StatFun)
    (xs ys : List PFloat) :
    lookupS (corrBlock flag k cf pf xs ys) k2 =
      if k = k2 ∧ flag = true then some (corrEntry cf pf xs ys) else none := by
  cases flag <;> by_cases h : k = k2 <;> simp [corrBlock, lookupS, h]

theorem lookup_bc_tt (cf pf : StatFun) (w : WDF) (t : TDF) (m : List MRow) :
    lookupS (buildCorrelations cf pf w t m) "temperature_traffic" =
      if (w.hasTMAX && t.hasVolume) = true then
        some (corrEntry cf pf (m.map (fun r => r.tmax)) (m.map (fun r => r.volume)))
      else none := by
  unfold buildCorrelations
  simp only [lookupS_append, lookupS_corrBlock,
    apply_ite (fun l => @lookupS CorrRes l "temperature_traffic")]
  simp only [lookupS]
  by_cases h1 : w.hasTMAX = true <;> by_cases h2 : t.hasVolume = true <;> simp [h1, h2]

theorem lookup_bc_mt (cf pf : StatFun) (w : WDF) (t : TDF) (m : List MRow) :
    lookupS (buildCorrelations cf pf w t m) "min_temperature_traffic" =
      if (w.hasTMIN && t.hasVolume) = true then
        some (corrEntry cf pf (m.map (fun r => r.tmin)) (m.map (fun r => r.volume)))
      else none := by
  unfold buildCorrelations
  simp only [lookupS_append, lookupS_corrBlock,
    apply_ite (fun l => @lookupS CorrRes l "min_temperature_traffic")]
  simp only [lookupS]
  by_cases h1 : w.hasTMIN = true <;> by_cases h2 : t.hasVolume = true <;> simp [h1, h2]

theorem lookup_bc_pt (cf pf : StatFun) (w : WDF) (t : TDF) (m : List MRow) :
    lookupS (buildCorrelations cf pf w t m) "precipitation_traffic" =
      if (w.hasPRCP && t.hasVolume) = true then
        some (corrEntry cf pf (m.map (fun r => r.prcp)) (m.map (fun r => r.volume)))
      else none := by
  unfold buildCorrelations
  simp only [lookupS_append, lookupS_corrBlock,
    apply_ite (fun l => @lookupS CorrRes l "precipitation_traffic")]
  simp only [lookupS]
  by_cases h1 : w.hasPRCP = true <;> by_cases h2 : t.hasVolume = true <;> simp [h1, h2]

theorem lookup_bc_wt (cf pf : StatFun) (w : WDF) (t : TDF) (m : List MRow) :
    lookupS (buildCorrelations cf pf w t m) "wind_traffic" =
      if (w.hasAWND && t.hasVolume) = true then
        some (corrEntry cf pf (m.map (fun r => r.awnd)) (m.map (fun r => r.volume)))
      else none := by
  unfold buildCorrelations
  simp only [lookupS_append, lookupS_corrBlock,
    apply_ite (fun l => @lookupS CorrRes l "wind_traffic")]
  simp only [lookupS]
  by_cases h1 : w.hasAWND = true <;> by_cases h2 : t.hasVolume = true <;> simp [h1, h2]

theorem lookup_bc_st (cf pf : StatFun) (w : WDF) (t : TDF) (m : List MRow) :
    lookupS (buildCorrelations cf pf w t m) "snow_traffic" =
      if (w.hasSNOW && t.hasVolume) = true then
        some (corrEntry cf pf (m.map (fun r => r.snow)) (m.map (fun r => r.volume)))
      else none := by
  unfold buildCorrelations
  simp only [lookupS_append, lookupS_corrBlock,
    apply_ite (fun l => @lookupS CorrRes l "snow_traffic")]
  simp only [lookupS]
  by_cases h1 : w.hasSNOW = true <;> by_cases h2 : t.hasVolume = true <;> simp [h1, h2]

theorem lookup_bc_ts (cf pf : StatFun) (w : WDF) (t : TDF) (m : List MRow) :
    lookupS (buildCorrelations cf pf w t m) "temperature_speed" =
      if (t.hasSpeed && w.hasTMAX) = true then
        some (corrEntry cf pf (m.map (fun r => r.tmax)) (m.map (fun r => r.speed)))
      else none := by
  unfold buildCorrelations
  simp only [lookupS_append, lookupS_corrBlock,
    apply_ite (fun l => @lookupS CorrRes l "temperature_speed")]
  simp only [lookupS]
  by_cases h1 : t.hasSpeed = true <;> by_cases h2 : w.hasTMAX = true <;> simp [h1, h2]

theorem lookup_bc_ps (cf pf : StatFun) (w : WDF) (t : TDF) (m : List MRow) :
    lookupS (buildCorrelations cf pf w t m) "precipitation_speed" =
      if (t.hasSpeed && w.hasPRCP) = true then
        some (corrEntry cf pf (m.map (fun r => r.prcp)) (m.map (fun r => r.speed)))
      else none := by
  unfold buildCorrelations
  simp only [lookupS_append, lookupS_corrBlock,
    apply_ite (fun l => @lookupS CorrRes l "precipitation_speed")]
  simp only [lookupS]
  by_cases h1 : t.hasSpeed = true <;> by_cases h2 : w.hasPRCP = true <;> simp [h1, h2]

theorem parseRowsW_ok_inv : ∀ {rows rs : List WRow},
    parseRowsW rows = .ok rs → rs = rows.map parsedRowW := by
  intro rows
  induction rows with
  | nil =>
    intro rs h
    cases h
    rfl
  | cons r rest ih =>
    intro rs h
    unfold parseRowsW at h
    cases hp : parseDate r.date with
    | none =>
      rw [hp] at h
      cases h
    | some d =>
      rw [hp] at h
      cases hr : parseRowsW rest with
      | error e =>
        rw [hr] at h
        cases h
      | ok rest2 =>
        rw [hr] at h
        cases h
        rw [List.map_cons, ← ih hr]
        have : parsedRowW r = { r with date := d } := by
          unfold parsedRowW
          rw [hp]
        rw [this]

theorem parseRowsT_ok_inv : ∀ {rows rs : List TRow},
    parseRowsT rows = .ok rs → rs = rows.map parsedRowT := by
  intro rows
  induction rows with
  | nil =>
    intro rs h
    cases h
    rfl
  | cons r rest ih =>
    intro rs h
    unfold parseRowsT at h
    cases hp : parseDate r.date with
    | none =>
      rw [hp] at h
      cases h
    | some d =>
      rw [hp] at h
      cases hr : parseRowsT rest with
      | error e =>
        rw [hr] at h
        cases h
      | ok rest2 =>
        rw [hr] at h
        cases h
        rw [List.map_cons, ← ih hr]
        have : parsedRowT r = { r with date := d } := by
          unfold parsedRowT
          rw [hp]
        rw [this]

/-- `analyze_weather_traffic_correlation` on the good path: both frames
non-empty with date columns and parseable dates. -/
theorem correlate_eq_good (cf pf : StatFun) (w : WDF) (t : TDF)
    (hw0 : w.rows ≠ []) (ht0 : t.rows ≠ [])
    (hwd : w.hasDate = true) (htd : t.hasDate = true)
    (hwb : ∀ r ∈ w.rows, r.date ≠ DateCell.sBad)
    (htb : ∀ r ∈ t.rows, r.date ≠ DateCell.sBad) :
    analyze_weather_traffic_correlation cf pf w t =
      ((if (mergeRows (w.rows.map parsedRowW) (t.rows.map parsedRowT)).isEmpty then []
        else buildCorrelations cf pf w t
          (mergeRows (w.rows.map parsedRowW) (t.rows.map parsedRowT))),
        { w with rows := w.rows.map parsedRowW },
        { t with rows := t.rows.map parsedRowT }) := by
  unfold analyze_weather_traffic_correlation correlateExc
  rw [if_neg (by simp [List.isEmpty_iff, hw0, ht0]), if_pos hwd, parseRowsW_ok hwb]
  dsimp only
  rw [if_pos htd, parseRowsT_ok htb]
  dsimp only
  by_cases hm : (mergeRows (w.rows.map parsedRowW) (t.rows.map parsedRowT)).isEmpty = true
  · simp only [hm]
    rfl
  · rw [Bool.not_eq_true] at hm
    simp only [hm]
    rfl

/-- `analyze_extreme_weather_impact` on the good path. -/
theorem impact_eq_good (w : WDF) (t : TDF)
    (hw0 : w.rows ≠ []) (ht0 : t.rows ≠ [])
    (hwd : w.hasDate = true) (htd : t.hasDate = true)
    (hwb : ∀ r ∈ w.rows, r.date ≠ DateCell.sBad)
    (htb : ∀ r ∈ t.rows, r.date ≠ DateCell.sBad) :
    analyze_extreme_weather_impact w t =
      ((if (mergeRows (w.rows.map parsedRowW) (t.rows.map parsedRowT)).isEmpty then []
        else buildImpacts w t (mergeRows (w.rows.map parsedRowW) (t.rows.map parsedRowT))),
        { w with rows := w.rows.map parsedRowW },
        { t with rows := t.rows.map parsedRowT }) := by
  unfold analyze_extreme_weather_impact impactExc
  rw [if_neg (by simp [List.isEmpty_iff, hw0, ht0]), if_pos hwd, parseRowsW_ok hwb]
  dsimp only
  rw [if_pos htd, parseRowsT_ok htb]
  dsimp only
  by_cases hm : (mergeRows (w.rows.map parsedRowW) (t.rows.map parsedRowT)).isEmpty = true
  · simp only [hm]
    rfl
  · rw [Bool.not_eq_true] at hm
    simp only [hm]
    rfl

/-- The result dict of a correlate call is either empty or built by
`buildCorrelations` over some joined row list. -/
theorem correlate_result_shape (cf pf : StatFun) (w : WDF) (t : TDF) :
    (analyze_weather_traffic_correlation cf pf w t).1 = [] ∨
      ∃ m, (analyze_weather_traffic_correlation cf pf w t).1 = buildCorrelations cf pf w t m := by
  unfold analyze_weather_traffic_correlation correlateExc
  split
  · exact Or.inl rfl
  · split
    · rename_i r heq
      split at heq
      · split at heq
        · cases heq
        · split at heq
          · split at heq
            · cases heq
            · dsimp only at heq
              split at heq
              · cases heq
                exact Or.inl rfl
              · cases heq
                exact Or.inr ⟨_, rfl⟩
          · cases heq
      · cases heq
    · exact Or.inl rfl

/-- The date-joined frame both analyzers build on the good path. -/
def joinedRows (w : WDF) (t : TDF) : List MRow :=
  mergeRows (w.rows.map parsedRowW) (t.rows.map parsedRowT)

theorem strengthOf_zero : strengthOf (some 0) = "negligible" := by
  norm_num [strengthOf]

/-- Below two paired non-missing observations the entry degenerates to
coefficient 0.0, p-value 1.0, strength 'negligible'. -/
theorem corrEntry_degenerate {cf pf : StatFun} {xs ys : List PFloat}
    (h : (pairedSomes xs ys).length < 2) :
    corrEntry cf pf xs ys = ⟨some 0, "negligible", some 1⟩ := by
  simp only [corrEntry, calcCorrelation, calcPValue]
  rw [if_pos h, if_pos h, strengthOf_zero]

/-- C4 (amended): a (weather_field, traffic_field) pair is absent from the
mapping returned by correlate whenever either field is absent from its source
series; but when both fields are present and the date join is non-empty, a
pair with fewer than 2 paired non-missing observations is still PRESENT, with
coefficient 0.0, p-value 1.0 and strength 'negligible' — it is not omitted as
the claim states.  Internal correlation computations over fewer than 2 points
yield coefficient 0.0 and p-value 1.0 rather than raising. -/
theorem c4_pair_omission_and_degenerate (cf pf : StatFun) (w : WDF) (t : TDF) :
    ((lookupS (analyze_weather_traffic_correlation cf pf w t).1 "temperature_traffic" ≠ none →
        w.hasTMAX = true ∧ t.hasVolume = true) ∧
      (lookupS (analyze_weather_traffic_correlation cf pf w t).1 "min_temperature_traffic" ≠ none →
        w.hasTMIN = true ∧ t.hasVolume = true) ∧
      (lookupS (analyze_weather_traffic_correlation cf pf w t).1 "precipitation_traffic" ≠ none →
        w.hasPRCP = true ∧ t.hasVolume = true) ∧
      (lookupS (analyze_weather_traffic_correlation cf pf w t).1 "wind_traffic" ≠ none →
        w.hasAWND = true ∧ t.hasVolume = true) ∧
      (lookupS (analyze_weather_traffic_correlation cf pf w t).1 "snow_traffic" ≠ none →
        w.hasSNOW = true ∧ t.hasVolume = true) ∧
      (lookupS (analyze_weather_traffic_correlation cf pf w t).1 "temperature_speed" ≠ none →
        t.hasSpeed = true ∧ w.hasTMAX = true) ∧
      (lookupS (analyze_weather_traffic_correlation cf pf w t).1 "precipitation_speed" ≠ none →
        t.hasSpeed = true ∧ w.hasPRCP = true)) ∧
    (∀ xs ys : List PFloat, (pairedSomes xs ys).length < 2 →
      calcCorrelation cf xs ys = some 0 ∧ calcPValue pf xs ys = some 1) ∧
    (w.rows ≠ [] → t.rows ≠ [] → w.hasDate = true → t.hasDate = true →
      (∀ r ∈ w.rows, r.date ≠ DateCell.sBad) → (∀ r ∈ t.rows, r.date ≠ DateCell.sBad) →
      joinedRows w t ≠ [] →
      ((w.hasTMAX && t.hasVolume) = true →
        (pairedSomes ((joinedRows w t).map (fun r => r.tmax))
          ((joinedRows w t).map (fun r => r.volume))).length < 2 →
        lookupS (analyze_weather_traffic_correlation cf pf w t).1 "temperature_traffic" =
          some ⟨some 0, "negligible", some 1⟩) ∧
      ((w.hasTMIN && t.hasVolume) = true →
        (pairedSomes ((joinedRows w t).map (fun r => r.tmin))
          ((joinedRows w t).map (fun r => r.volume))).length < 2 →
        lookupS (analyze_weather_traffic_correlation cf pf w t).1 "min_temperature_traffic" =
          some ⟨some 0, "negligible", some 1⟩) ∧
      ((w.hasPRCP && t.hasVolume) = true →
        (pairedSomes ((joinedRows w t).map (fun r => r.prcp))
          ((joinedRows w t).map (fun r => r.volume))).length < 2 →
        lookupS (analyze_weather_traffic_correlation cf pf w t).1 "precipitation_traffic" =
          some ⟨some 0, "negligible", some 1⟩) ∧
      ((w.hasAWND && t.hasVolume) = true →
        (pairedSomes ((joinedRows w t).map (fun r => r.awnd))
          ((joinedRows w t).map (fun r => r.volume))).length < 2 →
        lookupS (analyze_weather_traffic_correlation cf pf w t).1 "wind_traffic" =
          some ⟨some 0, "negligible", some 1⟩) ∧
      ((w.hasSNOW && t.hasVolume) = true →
        (pairedSomes ((joinedRows w t).map (fun r => r.snow))
          ((joinedRows w t).map (fun r => r.volume))).length < 2 →
        lookupS (analyze_weather_traffic_correlation cf pf w t).1 "snow_traffic" =
          some ⟨some 0, "negligible", some 1⟩) ∧
      ((t.hasSpeed && w.hasTMAX) = true →
        (pairedSomes ((joinedRows w t).map (fun r => r.tmax))
          ((joinedRows w t).map (fun r => r.speed))).length < 2 →
        lookupS (analyze_weather_traffic_correlation cf pf w t).1 "temperature_speed" =
          some ⟨some 0, "negligible", some 1⟩) ∧
      ((t.hasSpeed && w.hasPRCP) = true →
        (pairedSomes ((joinedRows w t).map (fun r => r.prcp))
          ((joinedRows w t).map (fun r => r.speed))).length < 2 →
        lookupS (analyze_weather_traffic_correlation cf pf w t).1 "precipitation_speed" =
          some ⟨some 0, "negligible", some 1⟩)) := by
  refine ⟨⟨?_, ?_, ?_, ?_, ?_, ?_, ?_⟩, ?_, ?_⟩
  · intro hp
    rcases correlate_result_shape cf pf w t with h | ⟨m, h⟩
    · rw [h] at hp
      exact absurd rfl hp
    · rw [h, lookup_bc_tt] at hp
      by_cases hc : (w.hasTMAX && t.hasVolume) = true
      · simp only [Bool.and_eq_true] at hc
        exact hc
      · rw [if_neg hc] at hp
        exact absurd rfl hp
  · intro hp
    rcases correlate_result_shape cf pf w t with h | ⟨m, h⟩
    · rw [h] at hp
      exact absurd rfl hp
    · rw [h, lookup_bc_mt] at hp
      by_cases hc : (w.hasTMIN && t.hasVolume) = true
      · simp only [Bool.and_eq_true] at hc
        exact hc
      · rw [if_neg hc] at hp
        exact absurd rfl hp
  · intro hp
    rcases correlate_result_shape cf pf w t with h | ⟨m, h⟩
    · rw [h] at hp
      exact absurd rfl hp
    · rw [h, lookup_bc_pt] at hp
      by_cases hc : (w.hasPRCP && t.hasVolume) = true
      · simp only [Bool.and_eq_true] at hc
        exact hc
      · rw [if_neg hc] at hp
        exact absurd rfl hp
  · intro hp
    rcases correlate_result_shape cf pf w t with h | ⟨m, h⟩
    · rw [h] at hp
      exact absurd rfl hp
    · rw [h, lookup_bc_wt] at hp
      by_cases hc : (w.hasAWND && t.hasVolume) = true
      · simp only [Bool.and_eq_true] at hc
        exact hc
      · rw [if_neg hc] at hp
        exact absurd rfl hp
  · intro hp
    rcases correlate_result_shape cf pf w t with h | ⟨m, h⟩
    · rw [h] at hp
      exact absurd rfl hp
    · rw [h, lookup_bc_st] at hp
      by_cases hc : (w.hasSNOW && t.hasVolume) = true
      · simp only [Bool.and_eq_true] at hc
        exact hc
      · rw [if_neg hc] at hp
        exact absurd rfl hp
  · intro hp
    rcases correlate_result_shape cf pf w t with h | ⟨m, h⟩
    · rw [h] at hp
      exact absurd rfl hp
    · rw [h, lookup_bc_ts] at hp
      by_cases hc : (t.hasSpeed && w.hasTMAX) = true
      · simp only [Bool.and_eq_true] at hc
        exact hc
      · rw [if_neg hc] at hp
        exact absurd rfl hp
  · intro hp
    rcases correlate_result_shape cf pf w t with h | ⟨m, h⟩
    · rw [h] at hp
      exact absurd rfl hp
    · rw [h, lookup_bc_ps] at hp
      by_cases hc : (t.hasSpeed && w.hasPRCP) = true
      · simp only [Bool.and_eq_true] at hc
        exact hc
      · rw [if_neg hc] at hp
        exact absurd rfl hp
  · intro xs ys hcnt
    constructor
    · simp only [calcCorrelation]
      rw [if_pos hcnt]
    · simp only [calcPValue]
      rw [if_pos hcnt]
  · intro hw0 ht0 hwd htd hwb htb hm
    have hres : (analyze_weather_traffic_correlation cf pf w t).1 =
        buildCorrelations cf pf w t (joinedRows w t) := by
      rw [correlate_eq_good cf pf w t hw0 ht0 hwd htd hwb htb]
      show (if (joinedRows w t).isEmpty then [] else _) = _
      rw [if_neg (by simpa [List.isEmpty_iff] using hm)]
      rfl
    refine ⟨?_, ?_, ?_, ?_, ?_, ?_, ?_⟩
    · intro hc hcnt
      rw [hres, lookup_bc_tt, if_pos hc, corrEntry_degenerate hcnt]
    · intro hc hcnt
      rw [hres, lookup_bc_mt, if_pos hc, corrEntry_degenerate hcnt]
    · intro hc hcnt
      rw [hres, lookup_bc_pt, if_pos hc, corrEntry_degenerate hcnt]
    · intro hc hcnt
      rw [hres, lookup_bc_wt, if_pos hc, corrEntry_degenerate hcnt]
    · intro hc hcnt
      rw [hres, lookup_bc_st, if_pos hc, corrEntry_degenerate hcnt]
    · intro hc hcnt
      rw [hres, lookup_bc_ts, if_pos hc, corrEntry_degenerate hcnt]
    · intro hc hcnt
      rw [hres, lookup_bc_ps, if_pos hc, corrEntry_degenerate hcnt]

/-- A concrete stand-in for the external statistics routines (`NaN`
everywhere), used only to instantiate the library parameters at concrete
inputs; no claim depends on the external values. -/
def cfNone : StatFun := fun _ _ => none

/-- One-record weather frame with a TMAX column, for the C4 instances. -/
def exC4w : WDF :=
  ⟨true, true, false, false, false, false, false,
    [⟨.dts 0, some 80, none, none, none, none, none⟩]⟩

/-- One-record traffic frame with a traffic_volume column. -/
def exC4t : TDF := ⟨true, true, false, [⟨.dts 0, some 100, none⟩]⟩

/-- C4 counterexample: with both fields present and a one-row join (a single
paired observation, fewer than 2), the pair 'temperature_traffic' is present
in the result with coefficient 0.0 and p-value 1.0; the claim says it should
be absent from the mapping. -/
theorem c4_counterexample :
    (pairedSomes ((joinedRows exC4w exC4t).map (fun r => r.tmax))
        ((joinedRows exC4w exC4t).map (fun r => r.volume))).length = 1 ∧
      (lookupS (analyze_weather_traffic_correlation cfNone cfNone exC4w exC4t).1
          "temperature_traffic").map (fun c => (c.correlation, c.p_value)) =
        some (some 0, some 1) := by
  constructor
  · decide
  · decide

/-- C4 witness: the amended theorem's degenerate-presence part applied at a
concrete one-row join. -/
theorem c4_witness :
    (exC4w.hasTMAX && exC4t.hasVolume) = true ∧
      (pairedSomes ((joinedRows exC4w exC4t).map (fun r => r.tmax))
        ((joinedRows exC4w exC4t).map (fun r => r.volume))).length < 2 ∧
      lookupS (analyze_weather_traffic_correlation cfNone cfNone exC4w exC4t).1
          "temperature_traffic" = some ⟨some 0, "negligible", some 1⟩ :=
  ⟨rfl, by decide,
    ((c4_pair_omission_and_degenerate cfNone cfNone exC4w exC4t).2.2 (by decide) (by decide)
        rfl rfl (by decide) (by decide) (by decide)).1 rfl (by decide)⟩

theorem lookupS_condBlock (flag : Bool) (k k2 : String) (get : MRow → PFloat) (thr : ℚ)
    (m : List MRow) :
    lookupS (condBlock flag k get thr m) k2 =
      if k = k2 ∧ flag = true ∧ 0 < (m.filter (fun r => gtO (get r) thr)).length ∧
          0 < (m.filter (fun r => leO (get r) thr)).length then
        some (impactEntry (m.filter (fun r => gtO (get r) thr))
          (m.filter (fun r => leO (get r) thr)))
      else none := by
  unfold condBlock
  cases flag with
  | false => simp [lookupS]
  | true =>
    dsimp only
    by_cases h : 0 < (m.filter (fun r => gtO (get r) thr)).length ∧
        0 < (m.filter (fun r => leO (get r) thr)).length
    · rw [if_pos h]
      by_cases hk : k = k2 <;> simp [lookupS, hk, h]
    · rw [if_neg h]
      simp [lookupS, h]

theorem lookup_bi_heat (w : WDF) (t : TDF) (m : List MRow) :
    lookupS (buildImpacts w t m) "heatwave_impact" =
      if (w.hasTMAX && t.hasVolume) = true ∧ 0 < (m.filter (fun r => gtO r.tmax 90)).length ∧
          0 < (m.filter (fun r => leO r.tmax 90)).length then
        some (impactEntry (m.filter (fun r => gtO r.tmax 90)) (m.filter (fun r => leO r.tmax 90)))
      else none := by
  unfold buildImpacts
  simp only [lookupS_append, lookupS_condBlock]
  by_cases h1 : (w.hasTMAX && t.hasVolume) = true <;>
    by_cases h2 : 0 < (m.filter (fun r => gtO r.tmax 90)).length ∧
      0 < (m.filter (fun r => leO r.tmax 90)).length <;>
    simp [h1, h2, and_assoc]

theorem lookup_bi_rain (w : WDF) (t : TDF) (m : List MRow) :
    lookupS (buildImpacts w t m) "heavy_rain_impact" =
      if (w.hasPRCP && t.hasVolume) = true ∧ 0 < (m.filter (fun r => gtO r.prcp 2)).length ∧
          0 < (m.filter (fun r => leO r.prcp 2)).length then
        some (impactEntry (m.filter (fun r => gtO r.prcp 2)) (m.filter (fun r => leO r.prcp 2)))
      else none := by
  unfold buildImpacts
  simp only [lookupS_append, lookupS_condBlock]
  by_cases h1 : (w.hasPRCP && t.hasVolume) = true <;>
    by_cases h2 : 0 < (m.filter (fun r => gtO r.prcp 2)).length ∧
      0 < (m.filter (fun r => leO r.prcp 2)).length <;>
    simp [h1, h2, and_assoc]

theorem lookup_bi_snow (w : WDF) (t : TDF) (m : List MRow) :
    lookupS (buildImpacts w t m) "snowstorm_impact" =
      if (w.hasSNOW && t.hasVolume) = true ∧ 0 < (m.filter (fun r => gtO r.snow 6)).length ∧
          0 < (m.filter (fun r => leO r.snow 6)).length then
        some (impactEntry (m.filter (fun r => gtO r.snow 6)) (m.filter (fun r => leO r.snow 6)))
      else none := by
  unfold buildImpacts
  simp only [lookupS_append, lookupS_condBlock]
  by_cases h1 : (w.hasSNOW && t.hasVolume) = true <;>
    by_cases h2 : 0 < (m.filter (fun r => gtO r.snow 6)).length ∧
      0 < (m.filter (fun r => leO r.snow 6)).length <;>
    simp [h1, h2, and_assoc]

theorem lookup_bi_wind (w : WDF) (t : TDF) (m : List MRow) :
    lookupS (buildImpacts w t m) "high_wind_impact" =
      if (w.hasAWND && t.hasVolume) = true ∧ 0 < (m.filter (fun r => gtO r.awnd 20)).length ∧
          0 < (m.filter (fun r => leO r.awnd 20)).length then
        some (impactEntry (m.filter (fun r => gtO r.awnd 20)) (m.filter (fun r => leO r.awnd 20)))
      else none := by
  unfold buildImpacts
  simp only [lookupS_append, lookupS_condBlock]
  by_cases h1 : (w.hasAWND && t.hasVolume) = true <;>
    by_cases h2 : 0 < (m.filter (fun r => gtO r.awnd 20)).length ∧
      0 < (m.filter (fun r => leO r.awnd 20)).length <;>
    simp [h1, h2, and_assoc]

/-- C5 (amended): for every pair of series on the good path, a condition of
analyze_impact is present in the result exactly when both the extreme and the
normal subset of the joined rows are non-empty — the normal-day mean is never
consulted, so a condition with mean zero is still emitted (with an IEEE
non-finite relative change) rather than omitted as the claim states. -/
theorem c5_zero_mean_condition_not_omitted (w : WDF) (t : TDF)
    (hw0 : w.rows ≠ []) (ht0 : t.rows ≠ [])
    (hwd : w.hasDate = true) (htd : t.hasDate = true)
    (hwb : ∀ r ∈ w.rows, r.date ≠ DateCell.sBad)
    (htb : ∀ r ∈ t.rows, r.date ≠ DateCell.sBad)
    (hm : joinedRows w t ≠ []) :
    ((lookupS (analyze_extreme_weather_impact w t).1 "heatwave_impact").isSome = true ↔
      (w.hasTMAX && t.hasVolume) = true ∧
        0 < ((joinedRows w t).filter (fun r => gtO r.tmax 90)).length ∧
        0 < ((joinedRows w t).filter (fun r => leO r.tmax 90)).length) ∧
    ((lookupS (analyze_extreme_weather_impact w t).1 "heavy_rain_impact").isSome = true ↔
      (w.hasPRCP && t.hasVolume) = true ∧
        0 < ((joinedRows w t).filter (fun r => gtO r.prcp 2)).length ∧
        0 < ((joinedRows w t).filter (fun r => leO r.prcp 2)).length) ∧
    ((lookupS (analyze_extreme_weather_impact w t).1 "snowstorm_impact").isSome = true ↔
      (w.hasSNOW && t.hasVolume) = true ∧
        0 < ((joinedRows w t).filter (fun r => gtO r.snow 6)).length ∧
        0 < ((joinedRows w t).filter (fun r => leO r.snow 6)).length) ∧
    ((lookupS (analyze_extreme_weather_impact w t).1 "high_wind_impact").isSome = true ↔
      (w.hasAWND && t.hasVolume) = true ∧
        0 < ((joinedRows w t).filter (fun r => gtO r.awnd 20)).length ∧
        0 < ((joinedRows w t).filter (fun r => leO r.awnd 20)).length) := by
  have hres : (analyze_extreme_weather_impact w t).1 = buildImpacts w t (joinedRows w t) := by
    rw [impact_eq_good w t hw0 ht0 hwd htd hwb htb]
    show (if (joinedRows w t).isEmpty then [] else _) = _
    rw [if_neg (by simpa [List.isEmpty_iff] using hm)]
    rfl
  rw [hres]
  refine ⟨?_, ?_, ?_, ?_⟩
  · rw [lookup_bi_heat]
    split
    · next h => simpa using h
    · next h => simpa using h
  · rw [lookup_bi_rain]
    split
    · next h => simpa using h
    · next h => simpa using h
  · rw [lookup_bi_snow]
    split
    · next h => simpa using h
    · next h => simpa using h
  · rw [lookup_bi_wind]
    split
    · next h => simpa using h
    · next h => simpa using h

/-- Weather frame with one heatwave day and one normal day. -/
def exC5w : WDF :=
  ⟨true, true, false, false, false, false, false,
    [⟨.dts 0, some 95, none, none, none, none, none⟩,
     ⟨.dts 1, some 70, none, none, none, none, none⟩]⟩

/-- Traffic frame with volume 0 on both days, so the normal-day mean is 0. -/
def exC5t : TDF := ⟨true, true, false, [⟨.dts 0, some 0, none⟩, ⟨.dts 1, some 0, none⟩]⟩

/-- C5 counterexample: the normal-day mean traffic volume is exactly zero,
yet 'heatwave_impact' is still present in the result — the code has no
zero-denominator guard, so the condition is not omitted as the claim states
(the division is float division, yielding a non-finite value, not an
exception). -/
theorem c5_counterexample :
    meanO (((joinedRows exC5w exC5t).filter (fun r => leO r.tmax 90)).map (fun r => r.volume)) =
      some 0 ∧
      (lookupS (analyze_extreme_weather_impact exC5w exC5t).1 "heatwave_impact").isSome = true := by
  constructor
  · have hjoin : (((joinedRows exC5w exC5t).filter (fun r => leO r.tmax 90)).map
        (fun r => r.volume)) = [some 0] := by decide
    rw [hjoin]
    norm_num [meanO, List.filterMap]
  · decide

/-- C5 witness: the amended characterization applied at the concrete
zero-mean input. -/
theorem c5_witness :
    (exC5w.hasTMAX && exC5t.hasVolume) = true ∧
      0 < ((joinedRows exC5w exC5t).filter (fun r => gtO r.tmax 90)).length ∧
      0 < ((joinedRows exC5w exC5t).filter (fun r => leO r.tmax 90)).length ∧
      (lookupS (analyze_extreme_weather_impact exC5w exC5t).1 "heatwave_impact").isSome = true :=
  ⟨rfl, by decide, by decide,
    (c5_zero_mean_condition_not_omitted exC5w exC5t (by decide) (by decide) rfl rfl
        (by decide) (by decide) (by decide)).1.mpr ⟨rfl, by decide, by decide⟩⟩

/-- The non-date fields of a weather row. -/
def wNonDate (r : WRow) : PFloat × PFloat × PFloat × PFloat × PFloat × PFloat :=
  (r.tmax, r.tmin, r.tavg, r.prcp, r.awnd, r.snow)

/-- The non-date fields of a traffic row. -/
def tNonDate (r : TRow) : PFloat × PFloat := (r.volume, r.speed)

theorem parsedRowW_nonDate (r : WRow) : wNonDate (parsedRowW r) = wNonDate r := by
  unfold parsedRowW
  cases parseDate r.date <;> rfl

theorem parsedRowT_nonDate (r : TRow) : tNonDate (parsedRowT r) = tNonDate r := by
  unfold parsedRowT
  cases parseDate r.date <;> rfl

/-- After a correlate call each caller frame is either untouched or has had
exactly its date column coerced in place. -/
theorem correlate_state_shape (cf pf : StatFun) (w : WDF) (t : TDF) :
    ((analyze_weather_traffic_correlation cf pf w t).2.1 = w ∨
      (analyze_weather_traffic_correlation cf pf w t).2.1 =
        { w with rows := w.rows.map parsedRowW }) ∧
      ((analyze_weather_traffic_correlation cf pf w t).2.2 = t ∨
        (analyze_weather_traffic_correlation cf pf w t).2.2 =
          { t with rows := t.rows.map parsedRowT }) := by
  unfold analyze_weather_traffic_correlation correlateExc
  split
  · exact ⟨Or.inl rfl, Or.inl rfl⟩
  · split
    · rename_i r heq
      split at heq
      · split at heq
        · cases heq
        · rename_i wr hwr
          have hw : wr = w.rows.map parsedRowW := parseRowsW_ok_inv hwr
          split at heq
          · split at heq
            · cases heq
            · rename_i tr htr
              have ht : tr = t.rows.map parsedRowT := parseRowsT_ok_inv htr
              dsimp only at heq
              split at heq
              · cases heq
                exact ⟨Or.inr (by rw [hw]), Or.inr (by rw [ht])⟩
              · cases heq
                exact ⟨Or.inr (by rw [hw]), Or.inr (by rw [ht])⟩
          · cases heq
      · cases heq
    · rename_i x heq
      split at heq
      · split at heq
        · cases heq
          exact ⟨Or.inl rfl, Or.inl rfl⟩
        · rename_i wr hwr
          have hw : wr = w.rows.map parsedRowW := parseRowsW_ok_inv hwr
          split at heq
          · split at heq
            · cases heq
              exact ⟨Or.inr (by rw [hw]), Or.inl rfl⟩
            · rename_i tr htr
              dsimp only at heq
              split at heq
              · cases heq
              · cases heq
          · cases heq
            exact ⟨Or.inr (by rw [hw]), Or.inl rfl⟩
      · cases heq
        exact ⟨Or.inl rfl, Or.inl rfl⟩

/-- Same state shape for an impact call. -/
theorem impact_state_shape (w : WDF) (t : TDF) :
    ((analyze_extreme_weather_impact w t).2.1 = w ∨
      (analyze_extreme_weather_impact w t).2.1 = { w with rows := w.rows.map parsedRowW }) ∧
      ((analyze_extreme_weather_impact w t).2.2 = t ∨
        (analyze_extreme_weather_impact w t).2.2 = { t with rows := t.rows.map parsedRowT }) := by
  unfold analyze_extreme_weather_impact impactExc
  split
  · exact ⟨Or.inl rfl, Or.inl rfl⟩
  · split
    · rename_i r heq
      split at heq
      · split at heq
        · cases heq
        · rename_i wr hwr
          have hw : wr = w.rows.map parsedRowW := parseRowsW_ok_inv hwr
          split at heq
          · split at heq
            · cases heq
            · rename_i tr htr
              have ht : tr = t.rows.map parsedRowT := parseRowsT_ok_inv htr
              dsimp only at heq
              split at heq
              · cases heq
                exact ⟨Or.inr (by rw [hw]), Or.inr (by rw [ht])⟩
              · cases heq
                exact ⟨Or.inr (by rw [hw]), Or.inr (by rw [ht])⟩
          · cases heq
      · cases heq
    · rename_i x heq
      split at heq
      · split at heq
        · cases heq
          exact ⟨Or.inl rfl, Or.inl rfl⟩
        · rename_i wr hwr
          have hw : wr = w.rows.map parsedRowW := parseRowsW_ok_inv hwr
          split at heq
          · split at heq
            · cases heq
              exact ⟨Or.inr (by rw [hw]), Or.inl rfl⟩
            · rename_i tr htr
              dsimp only at heq
              split at heq
              · cases heq
              · cases heq
          · cases heq
            exact ⟨Or.inr (by rw [hw]), Or.inl rfl⟩
      · cases heq
        exact ⟨Or.inl rfl, Or.inl rfl⟩

/-- Input whose date column is still unparsed strings. -/
def exC8w : WDF :=
  ⟨true, false, false, false, false, false, false,
    [⟨.sGood 7, none, none, none, none, none, none⟩]⟩

/-- Traffic input joined against `exC8w`. -/
def exC8t : TDF := ⟨true, true, false, [⟨.dts 7, some 10, none⟩]⟩

/-- C8 counterexample: both analyzers assign
`df['date'] = pd.to_datetime(df['date'])` on the caller's frames, so a frame
whose date column held strings comes back changed — the claim that both
inputs are unchanged after the call is false. -/
theorem c8_counterexample :
    (analyze_weather_traffic_correlation cfNone cfNone exC8w exC8t).2.1 ≠ exC8w ∧
      (analyze_extreme_weather_impact exC8w exC8t).2.1 ≠ exC8w := by
  constructor
  · decide
  · decide

/-- C8 (amended): correlate and analyze_impact mutate at most the date column
of their caller's frames — each input comes back either untouched or with
exactly `pd.to_datetime` applied to its date column; every non-date field of
every record is unchanged; and, the model being a pure function of its
inputs, the result is determined solely by the inputs. -/
theorem c8_only_date_mutated (cf pf : StatFun) (w : WDF) (t : TDF) :
    (((analyze_weather_traffic_correlation cf pf w t).2.1 = w ∨
        (analyze_weather_traffic_correlation cf pf w t).2.1 =
          { w with rows := w.rows.map parsedRowW }) ∧
      ((analyze_weather_traffic_correlation cf pf w t).2.2 = t ∨
        (analyze_weather_traffic_correlation cf pf w t).2.2 =
          { t with rows := t.rows.map parsedRowT }) ∧
      (analyze_weather_traffic_correlation cf pf w t).2.1.rows.map wNonDate =
        w.rows.map wNonDate ∧
      (analyze_weather_traffic_correlation cf pf w t).2.2.rows.map tNonDate =
        t.rows.map tNonDate) ∧
    (((analyze_extreme_weather_impact w t).2.1 = w ∨
        (analyze_extreme_weather_impact w t).2.1 = { w with rows := w.rows.map parsedRowW }) ∧
      ((analyze_extreme_weather_impact w t).2.2 = t ∨
        (analyze_extreme_weather_impact w t).2.2 = { t with rows := t.rows.map parsedRowT }) ∧
      (analyze_extreme_weather_impact w t).2.1.rows.map wNonDate = w.rows.map wNonDate ∧
      (analyze_extreme_weather_impact w t).2.2.rows.map tNonDate = t.rows.map tNonDate) := by
  obtain ⟨hw1, ht1⟩ := correlate_state_shape cf pf w t
  obtain ⟨hw2, ht2⟩ := impact_state_shape w t
  refine ⟨⟨hw1, ht1, ?_, ?_⟩, hw2, ht2, ?_, ?_⟩
  · rcases hw1 with h | h <;> rw [h]
    rw [show ({ w with rows := w.rows.map parsedRowW } : WDF).rows = w.rows.map parsedRowW
      from rfl, List.map_map]
    exact List.map_congr_left fun r _ => parsedRowW_nonDate r
  · rcases ht1 with h | h <;> rw [h]
    rw [show ({ t with rows := t.rows.map parsedRowT } : TDF).rows = t.rows.map parsedRowT
      from rfl, List.map_map]
    exact List.map_congr_left fun r _ => parsedRowT_nonDate r
  · rcases hw2 with h | h <;> rw [h]
    rw [show ({ w with rows := w.rows.map parsedRowW } : WDF).rows = w.rows.map parsedRowW
      from rfl, List.map_map]
    exact List.map_congr_left fun r _ => parsedRowW_nonDate r
  · rcases ht2 with h | h <;> rw [h]
    rw [show ({ t with rows := t.rows.map parsedRowT } : TDF).rows = t.rows.map parsedRowT
      from rfl, List.map_map]
    exact List.map_congr_left fun r _ => parsedRowT_nonDate r
